import Mathlib

/-!
Verification of the aiolifx LIFX LAN client against its specification.

The development shallowly embeds the parts of the source that the claims
touch:

* message.py   : Message framing (generate_packed_message, get_frame,
                 get_frame_addr, get_protocol_header, convert_MAC_to_int).
* msgtypes.py  : per-class payload serializers (get_payload) and MSG_IDS.
* unpack.py    : unpack_lifx_message.
* aiolifx.py   : seq_next, datagram_received, try_sending's retry check,
                 set_label, set_power (Device and Light),
                 resp_set_label / resp_set_power / resp_set_hostfirmware /
                 resp_set_wififirmware / resp_set_multizonemultizone and the
                 other resp_set_ cache handlers, mac_to_ipv6_linklocal.
* main.py      : get_kelvin (switch backlight Kelvin conversion).

Bytes are modelled as natural numbers below 256 and byte strings as lists
of naturals.  bitstring.pack("uint:w", v) followed by little_endian(...)
is modelled by leBytes (w/8) v; struct.unpack of a little-endian field is
modelled by leVal on the corresponding slice.  Python slicing bs[a:b] is
pySlice bs a b.  struct.unpack raises on a size mismatch, which is
modelled by Option: none marks an execution path on which the source
raises an exception.
-/

namespace Aiolifx

/-- Little-endian byte encoding of a value into n bytes (the model of
bitstring.pack("uint:8n", v) piped through little_endian in message.py:
pack yields big-endian bytes and little_endian reverses them). -/
def leBytes : Nat → Nat → List Nat
  | 0, _ => []
  | n + 1, v => v % 256 :: leBytes n (v / 256)

/-- Little-endian value of a byte list, the model of struct.unpack on a
little-endian machine. -/
def leVal : List Nat → Nat
  | [] => 0
  | b :: bs => b + 256 * leVal bs

/-- Python slice bs[a:b]. -/
def pySlice (bs : List Nat) (a b : Nat) : List Nat :=
  (bs.drop a).take (b - a)

/-- struct.unpack of one w-byte little-endian integer field: Python raises
unless the buffer length matches the format exactly. -/
def unpackLE (w : Nat) (bs : List Nat) : Option Nat :=
  if bs.length = w then some (leVal bs) else none

/-- struct.unpack("B"*w, bs) viewed as the raw byte list. -/
def unpackBytes (w : Nat) (bs : List Nat) : Option (List Nat) :=
  if bs.length = w then some bs else none

theorem leBytes_length (n v : Nat) : (leBytes n v).length = n := by
  induction n generalizing v with
  | zero => rfl
  | succ n ih => simp [leBytes, ih]

theorem leVal_leBytes (n v : Nat) (h : v < 256 ^ n) : leVal (leBytes n v) = v := by
  induction n generalizing v with
  | zero =>
    have : v = 0 := Nat.lt_one_iff.mp (by simpa using h)
    simp [this, leBytes, leVal]
  | succ n ih =>
    have hdiv : v / 256 < 256 ^ n := by
      have : v < 256 ^ n * 256 := by
        have := h
        rw [pow_succ] at this
        exact this
      exact Nat.div_lt_of_lt_mul (by omega)
    simp [leBytes, leVal, ih _ hdiv]
    omega

theorem leBytes_bounded (n v : Nat) : ∀ b ∈ leBytes n v, b < 256 := by
  induction n generalizing v with
  | zero => simp [leBytes]
  | succ n ih =>
    intro b hb
    simp [leBytes] at hb
    rcases hb with h | h
    · omega
    · exact ih _ b h

theorem leBytes_zero (n : Nat) : leBytes n 0 = List.replicate n 0 := by
  induction n with
  | zero => rfl
  | succ n ih => simp [leBytes, ih, List.replicate]

/-- Re-encoding the little-endian value of a byte list, with k extra bytes of
width, recovers the list followed by k zero bytes. -/
theorem leBytes_leVal_pad (bs : List Nat) (k : Nat) (h : ∀ b ∈ bs, b < 256) :
    leBytes (bs.length + k) (leVal bs) = bs ++ leBytes k 0 := by
  induction bs with
  | nil => simp [leVal]
  | cons b t ih =>
    have hb : b < 256 := h b (by simp)
    have ht : ∀ x ∈ t, x < 256 := fun x hx => h x (by simp [hx])
    have hlen : (b :: t).length + k = (t.length + k) + 1 := by simp; omega
    rw [hlen]
    simp only [leBytes, leVal, List.cons_append, List.cons.injEq]
    refine ⟨by omega, ?_⟩
    have hdiv : (b + 256 * leVal t) / 256 = leVal t := by omega
    rw [hdiv, ih ht]

theorem take_append_length (x rest : List Nat) : (x ++ rest).take x.length = x := by
  induction x with
  | nil => simp
  | cons a t ih => simp [ih]

theorem drop_append_length (x rest : List Nat) : (x ++ rest).drop x.length = rest := by
  induction x with
  | nil => simp
  | cons a t ih => simp [ih]

theorem drop_append_ge (x rest : List Nat) (i : Nat) (h : x.length ≤ i) :
    (x ++ rest).drop i = rest.drop (i - x.length) := by
  induction x generalizing i with
  | nil => simp
  | cons a t ih =>
    cases i with
    | zero => simp at h
    | succ j =>
      have : t.length ≤ j := by simp at h; omega
      simp only [List.cons_append, List.drop_succ_cons, ih j this]
      congr 1
      simp only [List.length_cons]
      omega

/-- Slicing past a known-length left part. -/
theorem pySlice_append_skip (x rest : List Nat) (i j : Nat) (h : x.length ≤ i) :
    pySlice (x ++ rest) i j = pySlice rest (i - x.length) (j - x.length) := by
  unfold pySlice
  rw [drop_append_ge x rest i h]
  congr 1
  omega

/-- Slicing out exactly a known-length left part. -/
theorem pySlice_front (x rest : List Nat) (j : Nat) (h : x.length = j) :
    pySlice (x ++ rest) 0 j = x := by
  unfold pySlice
  simp only [List.drop_zero, Nat.sub_zero]
  rw [← h, take_append_length]

theorem pySlice_self (x : List Nat) (j : Nat) (h : x.length = j) :
    pySlice x 0 j = x := by
  unfold pySlice
  simp [← h]

theorem unpackLE_leBytes (w v : Nat) (rest : List Nat) (hv : v < 256 ^ w) :
    unpackLE w (pySlice (leBytes w v ++ rest) 0 w) = some v := by
  rw [pySlice_front _ _ _ (leBytes_length w v)]
  unfold unpackLE
  rw [if_pos (leBytes_length w v), leVal_leBytes w v hv]

theorem unpackLE_leBytes_self (w v : Nat) (hv : v < 256 ^ w) :
    unpackLE w (pySlice (leBytes w v) 0 w) = some v := by
  rw [pySlice_self _ _ (leBytes_length w v)]
  unfold unpackLE
  rw [if_pos (leBytes_length w v), leVal_leBytes w v hv]

/-! ## Colors and payloads (msgtypes.py) -/

/-- An HSBK color quadruple: four unsigned 16-bit fields. -/
structure HSBK where
  hue : Nat
  saturation : Nat
  brightness : Nat
  kelvin : Nat
deriving DecidableEq, Repr

/-- Serialization of one color: for field in color, pack uint:16 little-endian. -/
def packHSBK (c : HSBK) : List Nat :=
  leBytes 2 c.hue ++ leBytes 2 c.saturation ++ leBytes 2 c.brightness ++ leBytes 2 c.kelvin

/-- struct.unpack("H"*4, bs) into an HSBK quadruple. -/
def unpackHSBK (bs : List Nat) : Option HSBK :=
  if bs.length = 8 then
    some { hue := leVal (pySlice bs 0 2), saturation := leVal (pySlice bs 2 4),
           brightness := leVal (pySlice bs 4 6), kelvin := leVal (pySlice bs 6 8) }
  else none

/-- Reading n consecutive HSBK colors at stride 8 starting at byte offset off,
the model of the loops "for i in range(n): struct.unpack(H*4, payload[off+8i : off+8+8i])"
in unpack.py. -/
def readColors : Nat → Nat → List Nat → Option (List HSBK)
  | 0, _, _ => some []
  | n + 1, off, pl => do
    let c ← unpackHSBK (pySlice pl off (off + 8))
    let rest ← readColors n (off + 8) pl
    pure (c :: rest)

/-- Label fields are written as the raw bytes followed by zero padding up to 32
bytes (for a label longer than 32 bytes the padding range is empty and the
label is emitted unchanged) — the serialization used by SetLabel.get_payload,
StateLabel.get_payload, StateLocation, StateGroup and label.ljust(32, b zero)
in LightState.get_payload. -/
def labelPad32 (label : List Nat) : List Nat :=
  label ++ List.replicate (32 - label.length) 0

/-- EchoRequest.get_payload: the byte array is zero-padded to 64 bytes when
shorter and truncated to 64 bytes when longer. -/
def echoRequestBytes (ba : List Nat) : List Nat :=
  if ba.length < 64 then ba ++ List.replicate (64 - ba.length) 0
  else if ba.length > 64 then ba.take 64
  else ba

/-- The six shapes of the button_target_properties dictionary built by the
StateButton unpack branch, one per ButtonTargetType enum member (RELAYS 2,
DEVICE 3, LOCATION 4, GROUP 5, SCENE 6, DEVICE_RELAYS 7). -/
inductive ButtonTarget where
  | relays (relays_count : Nat) (relays : List Nat)
  | device (serial : List Nat) (reserved : List Nat)
  | location (location_id : List Nat)
  | group (group_id : List Nat)
  | scene (scene_id : List Nat)
  | device_relays (serial : List Nat) (relays_count : Nat) (relays : List Nat)
deriving Repr

/-- One entry of a button's button_actions list: the validated gesture and
target-type enum values and the decoded target properties. -/
structure ButtonAction where
  button_gesture : Nat
  button_target_type : Nat
  button_target : ButtonTarget
deriving Repr

/-- One entry of the buttons list: actions_count and the five decoded
actions. -/
structure Button where
  actions_count : Nat
  button_actions : List ButtonAction
deriving Repr

set_option maxHeartbeats 1600000 in
/-- One message value: the message kind together with its payload fields,
one constructor per class of msgtypes.py that this development models, plus
Unknown for the bare Message produced by unpack_lifx_message's final else
branch.  Get-kinds carry no payload fields, matching their classes. -/
inductive Payload where
  | GetService
  | StateService (service : Nat) (port : Nat)
  | GetHostInfo
  | StateHostInfo (signal : Nat) (tx : Nat) (rx : Nat) (reserved1 : Int)
  | GetHostFirmware
  | StateHostFirmware (build : Nat) (reserved1 : Nat) (version : Nat)
  | GetWifiInfo
  | StateWifiInfo (signal : Nat) (tx : Nat) (rx : Nat) (reserved1 : Int)
  | GetWifiFirmware
  | StateWifiFirmware (build : Nat) (reserved1 : Nat) (version : Nat)
  | GetPower
  | SetPower (power_level : Nat)
  | StatePower (power_level : Nat)
  | GetLabel
  | SetLabel (label : List Nat)
  | StateLabel (label : List Nat)
  | GetVersion
  | StateVersion (vendor : Nat) (product : Nat) (version : Nat)
  | GetInfo
  | StateInfo (time : Nat) (uptime : Nat) (downtime : Nat)
  | SetReboot
  | Acknowledgement
  | GetLocation
  | StateLocation (location : List Nat) (label : List Nat) (updated_at : Nat)
  | GetGroup
  | StateGroup (group : List Nat) (label : List Nat) (updated_at : Nat)
  | EchoRequest (byte_array : List Nat)
  | EchoResponse (byte_array : List Nat)
  | LightGet
  | LightSetColor (color : HSBK) (duration : Nat)
  | LightState (color : HSBK) (reserved1 : Nat) (power_level : Nat)
      (label : List Nat) (reserved2 : Nat)
  | LightGetPower
  | LightSetPower (power_level : Nat) (duration : Nat)
  | LightStatePower (power_level : Nat)
  | LightGetInfrared
  | LightStateInfrared (infrared_brightness : Nat)
  | LightSetInfrared (infrared_brightness : Nat)
  | GetHevCycle
  | SetHevCycle (enable : Bool) (duration : Nat)
  | StateHevCycle (duration : Nat) (remaining : Nat) (last_power : Bool)
  | GetHevCycleConfiguration
  | SetHevCycleConfiguration (indication : Bool) (duration : Nat)
  | StateHevCycleConfiguration (indication : Bool) (duration : Nat)
  | GetLastHevCycleResult
  | StateLastHevCycleResult (result : Nat)
  | MultiZoneSetColorZones (start_index : Nat) (end_index : Nat) (color : HSBK)
      (duration : Nat) (apply : Nat)
  | MultiZoneStateZone (count : Nat) (index : Nat) (color : HSBK)
  | MultiZoneStateMultiZone (count : Nat) (index : Nat) (color : List HSBK)
  | MultiZoneGetMultiZoneEffect
  | MultiZoneSetMultiZoneEffect (instanceid : Nat) (type : Nat) (speed : Nat)
      (duration : Nat) (direction : Nat)
  | MultiZoneStateMultiZoneEffect (instanceid : Nat) (effect : Nat) (speed : Nat)
      (duration : Nat) (direction : Nat)
  | MultiZoneStateExtendedColorZones (zones_count : Nat) (zone_index : Nat)
      (colors_count : Nat) (colors : List HSBK)
  | StateRPower (relay_index : Nat) (level : Nat)
  | StateButton (count : Nat) (index : Nat) (buttons_count : Nat)
      (buttons : List Button)
  | StateButtonConfig (haptic_duration_ms : Nat) (backlight_on_color : HSBK)
      (backlight_off_color : HSBK)
  | Unknown (message_type : Nat)
deriving Repr

/-- The MSG_IDS registry of msgtypes.py, restricted to the modelled classes.
Unknown carries the wire message type of the bare Message. -/
def MSG_IDS : Payload → Nat
  | .GetService => 2
  | .StateService _ _ => 3
  | .GetHostInfo => 12
  | .StateHostInfo _ _ _ _ => 13
  | .GetHostFirmware => 14
  | .StateHostFirmware _ _ _ => 15
  | .GetWifiInfo => 16
  | .StateWifiInfo _ _ _ _ => 17
  | .GetWifiFirmware => 18
  | .StateWifiFirmware _ _ _ => 19
  | .GetPower => 20
  | .SetPower _ => 21
  | .StatePower _ => 22
  | .GetLabel => 23
  | .SetLabel _ => 24
  | .StateLabel _ => 25
  | .GetVersion => 32
  | .StateVersion _ _ _ => 33
  | .GetInfo => 34
  | .StateInfo _ _ _ => 35
  | .SetReboot => 38
  | .Acknowledgement => 45
  | .GetLocation => 48
  | .StateLocation _ _ _ => 50
  | .GetGroup => 51
  | .StateGroup _ _ _ => 53
  | .EchoRequest _ => 58
  | .EchoResponse _ => 59
  | .LightGet => 101
  | .LightSetColor _ _ => 102
  | .LightState _ _ _ _ _ => 107
  | .LightGetPower => 116
  | .LightSetPower _ _ => 117
  | .LightStatePower _ => 118
  | .LightGetInfrared => 120
  | .LightStateInfrared _ => 121
  | .LightSetInfrared _ => 122
  | .GetHevCycle => 142
  | .SetHevCycle _ _ => 143
  | .StateHevCycle _ _ _ => 144
  | .GetHevCycleConfiguration => 145
  | .SetHevCycleConfiguration _ _ => 146
  | .StateHevCycleConfiguration _ _ => 147
  | .GetLastHevCycleResult => 148
  | .StateLastHevCycleResult _ => 149
  | .MultiZoneSetColorZones _ _ _ _ _ => 501
  | .MultiZoneStateZone _ _ _ => 503
  | .MultiZoneStateMultiZone _ _ _ => 506
  | .MultiZoneGetMultiZoneEffect => 507
  | .MultiZoneSetMultiZoneEffect _ _ _ _ _ => 508
  | .MultiZoneStateMultiZoneEffect _ _ _ _ _ => 509
  | .MultiZoneStateExtendedColorZones _ _ _ _ => 512
  | .StateRPower _ _ => 818
  | .StateButton _ _ _ _ => 907
  | .StateButtonConfig _ _ _ => 911
  | .Unknown t => t

/-- The per-class get_payload serializers of msgtypes.py.  Classes without a
get_payload override inherit the base Message.get_payload, which returns the
empty byte string.  none marks a serializer that raises in the source:
MultiZoneStateMultiZoneEffect.get_payload calls payload_fields.append with two
positional arguments, a TypeError, so that class can never be packed. -/
def encodePayload : Payload → Option (List Nat)
  | .GetService => some []
  | .StateService service port => some (leBytes 1 service ++ leBytes 4 port)
  | .GetHostInfo => some []
  | .StateHostInfo signal tx rx reserved1 =>
      -- the float:32 signal is carried as its 32-bit wire pattern; int:16
      -- reserved1 is packed as two-complement little-endian bytes.
      some (leBytes 4 signal ++ leBytes 4 tx ++ leBytes 4 rx ++
            leBytes 2 (reserved1 % 65536).toNat)
  | .GetHostFirmware => some []
  | .StateHostFirmware build reserved1 version =>
      some (leBytes 8 build ++ leBytes 8 reserved1 ++ leBytes 4 version)
  | .GetWifiInfo => some []
  | .StateWifiInfo signal tx rx reserved1 =>
      some (leBytes 4 signal ++ leBytes 4 tx ++ leBytes 4 rx ++
            leBytes 2 (reserved1 % 65536).toNat)
  | .GetWifiFirmware => some []
  | .StateWifiFirmware build reserved1 version =>
      some (leBytes 8 build ++ leBytes 8 reserved1 ++ leBytes 4 version)
  | .GetPower => some []
  | .SetPower power_level => some (leBytes 2 power_level)
  | .StatePower power_level => some (leBytes 2 power_level)
  | .GetLabel => some []
  | .SetLabel label => some (labelPad32 label)
  | .StateLabel label => some (labelPad32 label)
  | .GetVersion => some []
  | .StateVersion vendor product version =>
      some (leBytes 4 vendor ++ leBytes 4 product ++ leBytes 4 version)
  | .GetInfo => some []
  | .StateInfo time uptime downtime =>
      some (leBytes 8 time ++ leBytes 8 uptime ++ leBytes 8 downtime)
  | .SetReboot => some []
  | .Acknowledgement => some []
  | .GetLocation => some []
  | .StateLocation location label updated_at =>
      some (location ++ labelPad32 label ++ leBytes 8 updated_at)
  | .GetGroup => some []
  | .StateGroup group label updated_at =>
      some (group ++ labelPad32 label ++ leBytes 8 updated_at)
  | .EchoRequest byte_array => some (echoRequestBytes byte_array)
  | .EchoResponse byte_array => some byte_array
  | .LightGet => some []
  | .LightSetColor color duration =>
      some (leBytes 1 0 ++ packHSBK color ++ leBytes 4 duration)
  | .LightState color reserved1 power_level label _reserved2 =>
      -- LightState.get_payload packs reserved1 again for the final
      -- 64-bit reserved field; the reserved2 attribute is never serialized.
      some (packHSBK color ++ leBytes 2 reserved1 ++ leBytes 2 power_level ++
            labelPad32 label ++ leBytes 8 reserved1)
  | .LightGetPower => some []
  | .LightSetPower power_level duration =>
      some (leBytes 2 power_level ++ leBytes 4 duration)
  | .LightStatePower power_level => some (leBytes 2 power_level)
  | .LightGetInfrared => some []
  | .LightStateInfrared infrared_brightness => some (leBytes 2 infrared_brightness)
  | .LightSetInfrared infrared_brightness => some (leBytes 2 infrared_brightness)
  | .GetHevCycle => some []
  | .SetHevCycle enable duration =>
      some (leBytes 1 (if enable then 1 else 0) ++ leBytes 4 duration)
  | .StateHevCycle duration remaining last_power =>
      some (leBytes 4 duration ++ leBytes 4 remaining ++
            leBytes 1 (if last_power then 1 else 0))
  | .GetHevCycleConfiguration => some []
  | .SetHevCycleConfiguration indication duration =>
      some (leBytes 1 (if indication then 1 else 0) ++ leBytes 4 duration)
  | .StateHevCycleConfiguration indication duration =>
      some (leBytes 1 (if indication then 1 else 0) ++ leBytes 4 duration)
  | .GetLastHevCycleResult => some []
  | .StateLastHevCycleResult result => some (leBytes 1 result)
  | .MultiZoneSetColorZones start_index end_index color duration apply =>
      some (leBytes 1 start_index ++ leBytes 1 end_index ++ packHSBK color ++
            leBytes 4 duration ++ leBytes 1 apply)
  | .MultiZoneStateZone count index color =>
      some (leBytes 1 count ++ leBytes 1 index ++ packHSBK color)
  | .MultiZoneStateMultiZone count index color =>
      some (leBytes 1 count ++ leBytes 1 index ++ (color.map packHSBK).flatten)
  | .MultiZoneGetMultiZoneEffect => some []
  | .MultiZoneSetMultiZoneEffect instanceid type speed duration direction =>
      -- reserved6 is packed as int:16 of 2, reserved7/reserved8/parameter1 as
      -- 32-bit 4, and parameter3 (32-bit 4) is repeated six times.
      some (leBytes 4 instanceid ++ leBytes 1 type ++ leBytes 2 2 ++
            leBytes 4 speed ++ leBytes 8 duration ++ leBytes 4 4 ++ leBytes 4 4 ++
            leBytes 4 4 ++ leBytes 4 direction ++
            (leBytes 4 4 ++ leBytes 4 4 ++ leBytes 4 4 ++ leBytes 4 4 ++
             leBytes 4 4 ++ leBytes 4 4))
  | .MultiZoneStateMultiZoneEffect _ _ _ _ _ => none
  | .MultiZoneStateExtendedColorZones zones_count zone_index colors_count colors =>
      some (leBytes 2 zones_count ++ leBytes 2 zone_index ++ leBytes 1 colors_count ++
            (colors.map packHSBK).flatten)
  | .StateRPower relay_index level =>
      -- StateRPower.get_payload packs the level as uint:32 (four bytes).
      some (leBytes 1 relay_index ++ leBytes 4 level)
  | .StateButton _ _ _ _ =>
      -- StateButton defines no get_payload, so the base class emits an
      -- empty payload.
      some []
  | .StateButtonConfig _ _ _ =>
      -- StateButtonConfig defines no get_payload, so the base class emits
      -- an empty payload.
      some []
  | .Unknown _ => some []

/-! ## Message framing (message.py) -/

/-- The header size constant of message.py. -/
def HEADER_SIZE_BYTES : Nat := 36

/-- The all-zero broadcast MAC.  The source keeps MACs as colon-separated
lowercase hex strings; this development models a canonical MAC as its six
octets. -/
def BROADCAST_MAC : List Nat := [0, 0, 0, 0, 0, 0]

/-- convert_MAC_to_int reverses the colon-separated byte pairs and parses the
result as hex, so on a canonical six-octet MAC it returns the little-endian
value of the octet sequence. -/
def convertMACToInt (addr : List Nat) : Nat := leVal addr

/-- The header fields that the encoder takes as inputs and the unpacker
reports back: target MAC, source id, sequence number and the two
response-flag bits (the constructor of Message normalizes the two flags to
0/1, modelled as Bool). -/
structure Header where
  target_addr : List Nat
  source_id : Nat
  seq_num : Nat
  ack_requested : Bool
  response_requested : Bool
deriving DecidableEq, Repr

/-- GetService.__init__ overwrites the target address with the broadcast MAC
before calling the base constructor; every other class keeps the caller's
target. -/
def targetAddrOf (h : Header) (p : Payload) : List Nat :=
  match p with
  | .GetService => BROADCAST_MAC
  | _ => h.target_addr

/-- The bit-packed flags word of Message.get_frame: origin (2 bits, value 0),
tagged (1 bit), addressable (1 bit, value 1), protocol (12 bits, value 1024). -/
def frameFlags (tagged : Nat) : Nat :=
  ((0 &&& 3) <<< 14) ||| ((tagged &&& 1) <<< 13) |||
  ((1 &&& 1) <<< 12) ||| (1024 &&& 4095)

/-- Message.get_frame: size, then the bit-packed flags word, then the
source id. -/
def getFrame (size : Nat) (tagged : Nat) (source_id : Nat) : List Nat :=
  leBytes 2 size ++ leBytes 2 (frameFlags tagged) ++ leBytes 4 source_id

/-- The response-flags byte of Message.get_frame_addr: reserved (6 bits,
value 0), ack_requested, response_requested. -/
def respFlagsByte (ack_requested response_requested : Bool) : Nat :=
  ((0 &&& 63) <<< 2) |||
  (((if ack_requested then 1 else 0) &&& 1) <<< 1) |||
  ((if response_requested then 1 else 0) &&& 1)

/-- Message.get_frame_addr: the MAC as a 64-bit little-endian value, six
reserved zero bytes, the response-flags byte, and the sequence number byte. -/
def getFrameAddr (target : List Nat) (ack_requested response_requested : Bool)
    (seq_num : Nat) : List Nat :=
  leBytes 8 (convertMACToInt target) ++
  List.replicate 6 0 ++
  leBytes 1 (respFlagsByte ack_requested response_requested) ++
  leBytes 1 seq_num

/-- Message.get_protocol_header: 64 reserved zero bits, the message type,
16 reserved zero bits. -/
def getProtocolHeader (message_type : Nat) : List Nat :=
  leBytes 8 0 ++ leBytes 2 message_type ++ leBytes 2 0

/-- Message.get_header: frame, frame address, protocol header; the size field
is computed by get_msg_size as header size plus payload size. -/
def getHeader (size tagged source_id : Nat) (target : List Nat)
    (ack_requested response_requested : Bool) (seq_num message_type : Nat) :
    List Nat :=
  getFrame size tagged source_id ++
  getFrameAddr target ack_requested response_requested seq_num ++
  getProtocolHeader message_type

/-- Message.generate_packed_message: serialize the payload, then the header
(whose size field is 36 plus the payload length, and whose tagged bit is set
exactly when the target equals the broadcast MAC), and concatenate.  none
marks a payload serializer that raises in the source. -/
def generatePackedMessage (h : Header) (p : Payload) : Option (List Nat) :=
  (encodePayload p).map (fun payload =>
    let target := targetAddrOf h p
    let tagged : Nat := if target = BROADCAST_MAC then 1 else 0
    let size := HEADER_SIZE_BYTES + payload.length
    getHeader size tagged h.source_id target h.ack_requested
      h.response_requested h.seq_num (MSG_IDS p) ++ payload)

/-! ## Unpacking (unpack.py) -/

/-- getBacklightColor of unpack.py: four consecutive unsigned 16-bit reads. -/
def getBacklightColor (bs : List Nat) : Option HSBK :=
  if bs.length = 8 then
    some { hue := leVal (pySlice bs 0 2), saturation := leVal (pySlice bs 2 4),
           brightness := leVal (pySlice bs 4 6), kelvin := leVal (pySlice bs 6 8) }
  else none

/-- struct.unpack(">H", bs): one big-endian unsigned 16-bit value, used only
by the StateRPower branch. -/
def unpackBE2 (bs : List Nat) : Option Nat :=
  match bs with
  | [a, b] => some (a * 256 + b)
  | _ => none

/-- struct.unpack("h", two little-endian bytes): the unsigned 16-bit value
reinterpreted as a signed 16-bit integer (two-complement). -/
def signed16 (u : Nat) : Int :=
  if u < 32768 then (u : Int) else (u : Int) - 65536

/-- The per-type split of the 16 button_target bytes in the StateButton
branch, one case per ButtonTargetType enum member (RELAYS 2, DEVICE 3,
LOCATION 4, GROUP 5, SCENE 6, DEVICE_RELAYS 7); the caller has already
validated the member, so the final case is unreachable. -/
def decodeButtonTarget (t : Nat) (bt : List Nat) : Option ButtonTarget :=
  if t = 2 then do
    let relays_count ← unpackLE 1 (pySlice bt 0 1)
    let relays ← unpackBytes 15 (bt.drop 1)
    pure (.relays relays_count relays)
  else if t = 3 then do
    let serial ← unpackBytes 6 (pySlice bt 0 6)
    let reserved ← unpackBytes 10 (bt.drop 6)
    pure (.device serial reserved)
  else if t = 4 then do
    let location_id ← unpackBytes 16 (pySlice bt 0 16)
    pure (.location location_id)
  else if t = 5 then do
    let group_id ← unpackBytes 16 (pySlice bt 0 16)
    pure (.group group_id)
  else if t = 6 then do
    let scene_id ← unpackBytes 16 (pySlice bt 0 16)
    pure (.scene scene_id)
  else if t = 7 then do
    let serial ← unpackBytes 6 (pySlice bt 0 6)
    let relays_count ← unpackLE 1 (pySlice bt 6 7)
    let relays ← unpackBytes 9 (bt.drop 7)
    pure (.device_relays serial relays_count relays)
  else none

/-- One 20-byte button action of the StateButton branch: the gesture and the
target type are validated as enum members (ButtonGesture 1..5 and
ButtonTargetType 2..7; the enum constructor raises ValueError on any other
value), and the remaining 16 bytes are the target. -/
def readButtonAction (bs : List Nat) : Option ButtonAction := do
  let g ← unpackLE 2 (pySlice bs 0 2)
  if 1 ≤ g ∧ g ≤ 5 then do
    let t ← unpackLE 2 (pySlice bs 2 4)
    if 2 ≤ t ∧ t ≤ 7 then do
      let target ← decodeButtonTarget t (bs.drop 4)
      pure { button_gesture := g, button_target_type := t,
             button_target := target }
    else none
  else none

/-- The five 20-byte actions of one 101-byte button record, read at offsets
1 + 20 j. -/
def readButtonActions : Nat → Nat → List Nat → Option (List ButtonAction)
  | 0, _, _ => some []
  | n + 1, off, bs => do
    let a ← readButtonAction (pySlice bs off (off + 20))
    let rest ← readButtonActions n (off + 20) bs
    pure (a :: rest)

/-- The eight 101-byte button records of a StateButton payload, read at
offsets 3 + 101 i. -/
def readButtons : Nat → Nat → List Nat → Option (List Button)
  | 0, _, _ => some []
  | n + 1, off, pl => do
    let button_bytes := pySlice pl off (off + 101)
    let actions_count ← unpackLE 1 (pySlice button_bytes 0 1)
    let actions ← readButtonActions 5 1 button_bytes
    let rest ← readButtons n (off + 101) pl
    pure ({ actions_count := actions_count, button_actions := actions } :: rest)

/-- The payload dispatch of unpack_lifx_message, one branch per message type
in source order.  none models a branch on which the source raises:

* type 508 unpacks 31 bytes and then the MultiZoneSetMultiZoneEffect
  constructor raises KeyError, because the branch stores the key "effect"
  while the constructor reads payload["type"];
* type 720 decodes its fields and then the TileStateTileEffect constructor
  raises KeyError on the missing "sky_type" key.

Types 13 and 17 read a binary32 signal (struct.unpack("f"), native
little-endian byte order), carried here as its 32-bit wire pattern, two
unsigned 32-bit counters, and a signed 16-bit reserved field
(struct.unpack("h"), modelled by signed16).  Type 907 decodes the nested
button records, with none for the ValueError a non-member gesture or target
type raises.  Any other type falls through to the bare Message, modelled by
Unknown. -/
def decodePayload (message_type : Nat) (pl : List Nat) : Option Payload :=
  if message_type = 2 then some .GetService
  else if message_type = 3 then do
    let service ← unpackLE 1 (pySlice pl 0 1)
    let port ← unpackLE 4 (pySlice pl 1 5)
    pure (.StateService service port)
  else if message_type = 12 then some .GetHostInfo
  else if message_type = 13 then do
    let signal ← unpackLE 4 (pySlice pl 0 4)
    let tx ← unpackLE 4 (pySlice pl 4 8)
    let rx ← unpackLE 4 (pySlice pl 8 12)
    let reserved1 ← unpackLE 2 (pySlice pl 12 14)
    pure (.StateHostInfo signal tx rx (signed16 reserved1))
  else if message_type = 14 then some .GetHostFirmware
  else if message_type = 15 then do
    let build ← unpackLE 8 (pySlice pl 0 8)
    let reserved1 ← unpackLE 8 (pySlice pl 8 16)
    let version ← unpackLE 4 (pySlice pl 16 20)
    pure (.StateHostFirmware build reserved1 version)
  else if message_type = 16 then some .GetWifiInfo
  else if message_type = 17 then do
    let signal ← unpackLE 4 (pySlice pl 0 4)
    let tx ← unpackLE 4 (pySlice pl 4 8)
    let rx ← unpackLE 4 (pySlice pl 8 12)
    let reserved1 ← unpackLE 2 (pySlice pl 12 14)
    pure (.StateWifiInfo signal tx rx (signed16 reserved1))
  else if message_type = 18 then some .GetWifiFirmware
  else if message_type = 19 then do
    let build ← unpackLE 8 (pySlice pl 0 8)
    let reserved1 ← unpackLE 8 (pySlice pl 8 16)
    let version ← unpackLE 4 (pySlice pl 16 20)
    pure (.StateWifiFirmware build reserved1 version)
  else if message_type = 20 then some .GetPower
  else if message_type = 21 then do
    let power_level ← unpackLE 2 (pySlice pl 0 2)
    pure (.SetPower power_level)
  else if message_type = 22 then do
    let power_level ← unpackLE 2 (pySlice pl 0 2)
    pure (.StatePower power_level)
  else if message_type = 23 then some .GetLabel
  else if message_type = 24 then do
    let label ← unpackBytes 32 (pySlice pl 0 32)
    pure (.SetLabel label)
  else if message_type = 25 then do
    let label ← unpackBytes 32 (pySlice pl 0 32)
    pure (.StateLabel label)
  else if message_type = 48 then some .GetLocation
  else if message_type = 50 then do
    let location ← unpackBytes 16 (pySlice pl 0 16)
    let label ← unpackBytes 32 (pySlice pl 16 48)
    let updated_at ← unpackLE 8 (pySlice pl 48 56)
    pure (.StateLocation location label updated_at)
  else if message_type = 51 then some .GetGroup
  else if message_type = 53 then do
    let group ← unpackBytes 16 (pySlice pl 0 16)
    let label ← unpackBytes 32 (pySlice pl 16 48)
    let updated_at ← unpackLE 8 (pySlice pl 48 56)
    pure (.StateGroup group label updated_at)
  else if message_type = 32 then some .GetVersion
  else if message_type = 33 then do
    let vendor ← unpackLE 4 (pySlice pl 0 4)
    let product ← unpackLE 4 (pySlice pl 4 8)
    let version ← unpackLE 4 (pySlice pl 8 12)
    pure (.StateVersion vendor product version)
  else if message_type = 34 then some .GetInfo
  else if message_type = 35 then do
    let time ← unpackLE 8 (pySlice pl 0 8)
    let uptime ← unpackLE 8 (pySlice pl 8 16)
    let downtime ← unpackLE 8 (pySlice pl 16 24)
    pure (.StateInfo time uptime downtime)
  else if message_type = 45 then some .Acknowledgement
  else if message_type = 58 then some (.EchoRequest pl)
  else if message_type = 59 then some (.EchoResponse pl)
  else if message_type = 101 then some .LightGet
  else if message_type = 102 then do
    let color ← unpackHSBK (pySlice pl 0 8)
    let duration ← unpackLE 4 (pySlice pl 8 12)
    pure (.LightSetColor color duration)
  else if message_type = 107 then do
    let color ← unpackHSBK (pySlice pl 0 8)
    let reserved1 ← unpackLE 2 (pySlice pl 8 10)
    let power_level ← unpackLE 2 (pySlice pl 10 12)
    let label ← unpackBytes 32 (pySlice pl 12 44)
    let reserved2 ← unpackLE 8 (pySlice pl 44 52)
    pure (.LightState color reserved1 power_level label reserved2)
  else if message_type = 116 then some .LightGetPower
  else if message_type = 117 then do
    let power_level ← unpackLE 2 (pySlice pl 0 2)
    let duration ← unpackLE 4 (pySlice pl 2 6)
    pure (.LightSetPower power_level duration)
  else if message_type = 118 then do
    let power_level ← unpackLE 2 (pySlice pl 0 2)
    pure (.LightStatePower power_level)
  else if message_type = 120 then some .LightGetInfrared
  else if message_type = 121 then do
    let infrared_brightness ← unpackLE 2 (pySlice pl 0 2)
    pure (.LightStateInfrared infrared_brightness)
  else if message_type = 122 then do
    let infrared_brightness ← unpackLE 2 (pySlice pl 0 2)
    pure (.LightSetInfrared infrared_brightness)
  else if message_type = 142 then some .GetHevCycle
  else if message_type = 143 then do
    let enable ← unpackLE 1 (pySlice pl 0 1)
    let duration ← unpackLE 4 (pySlice pl 1 5)
    pure (.SetHevCycle (enable == 1) duration)
  else if message_type = 144 then do
    let duration ← unpackLE 4 (pySlice pl 0 4)
    let remaining ← unpackLE 4 (pySlice pl 4 8)
    let last_power ← unpackLE 1 (pySlice pl 8 9)
    pure (.StateHevCycle duration remaining (last_power == 1))
  else if message_type = 145 then some .GetHevCycleConfiguration
  else if message_type = 146 then do
    let indication ← unpackLE 1 (pySlice pl 0 1)
    let duration ← unpackLE 4 (pySlice pl 1 5)
    pure (.SetHevCycleConfiguration (indication == 1) duration)
  else if message_type = 147 then do
    let indication ← unpackLE 1 (pySlice pl 0 1)
    let duration ← unpackLE 4 (pySlice pl 1 5)
    pure (.StateHevCycleConfiguration (indication == 1) duration)
  else if message_type = 148 then some .GetLastHevCycleResult
  else if message_type = 149 then do
    let result ← unpackLE 1 (pySlice pl 0 1)
    pure (.StateLastHevCycleResult result)
  else if message_type = 503 then do
    let count ← unpackLE 1 (pySlice pl 0 1)
    let index ← unpackLE 1 (pySlice pl 1 2)
    let color ← unpackHSBK (pySlice pl 2 10)
    pure (.MultiZoneStateZone count index color)
  else if message_type = 506 then do
    let count ← unpackLE 1 (pySlice pl 0 1)
    let index ← unpackLE 1 (pySlice pl 1 2)
    let colors ← readColors 8 2 pl
    pure (.MultiZoneStateMultiZone count index colors)
  else if message_type = 507 then do
    -- the branch unpacks 31 bytes, but the MultiZoneGetMultiZoneEffect
    -- constructor ignores the payload dictionary entirely
    let _ ← unpackBytes 31 (pySlice pl 0 31)
    pure .MultiZoneGetMultiZoneEffect
  else if message_type = 508 then do
    let _ ← unpackBytes 31 (pySlice pl 0 31)
    none
  else if message_type = 509 then do
    let instanceid ← unpackLE 4 (pySlice pl 0 4)
    let effect ← unpackLE 1 (pySlice pl 4 5)
    let _ ← unpackLE 2 (pySlice pl 5 7)
    let speed ← unpackLE 4 (pySlice pl 7 11)
    let duration ← unpackLE 8 (pySlice pl 11 19)
    let _ ← unpackLE 4 (pySlice pl 19 23)
    let _ ← unpackLE 4 (pySlice pl 23 27)
    let direction ← unpackLE 4 (pySlice pl 31 35)
    pure (.MultiZoneStateMultiZoneEffect instanceid effect speed duration direction)
  else if message_type = 512 then do
    let zones_count ← unpackLE 2 (pySlice pl 0 2)
    let zone_index ← unpackLE 2 (pySlice pl 2 4)
    let colors_count ← unpackLE 1 (pySlice pl 4 5)
    let colors ← readColors 82 5 pl
    pure (.MultiZoneStateExtendedColorZones zones_count zone_index colors_count colors)
  else if message_type = 720 then none
  else if message_type = 818 then do
    let relay_index ← unpackLE 1 (pySlice pl 0 1)
    let level ← unpackBE2 (pl.drop 1)
    pure (.StateRPower relay_index level)
  else if message_type = 907 then do
    let count ← unpackLE 1 (pySlice pl 0 1)
    let index ← unpackLE 1 (pySlice pl 1 2)
    let buttons_count ← unpackLE 1 (pySlice pl 2 3)
    let buttons ← readButtons 8 3 pl
    pure (.StateButton count index buttons_count buttons)
  else if message_type = 911 then do
    let haptic_duration_ms ← unpackLE 1 (pySlice pl 0 1)
    let backlight_on_color ← getBacklightColor (pySlice pl 1 9)
    let backlight_off_color ← getBacklightColor (pySlice pl 9 17)
    pure (.StateButtonConfig haptic_duration_ms backlight_on_color backlight_off_color)
  else some (.Unknown message_type)

/-- unpack_lifx_message: parse the 36-byte header (size, flags, source id,
target MAC, response flags, sequence number, message type), then dispatch on
the message type to decode the payload.  The constructor of each class
normalizes ack_requested = response_flags AND 2 and
response_requested = response_flags AND 1 to booleans. -/
def unpackLifxMessage (packed_message : List Nat) : Option (Header × Payload) := do
  let header_str := pySlice packed_message 0 HEADER_SIZE_BYTES
  let payload_str := packed_message.drop HEADER_SIZE_BYTES
  let _size ← unpackLE 2 (pySlice header_str 0 2)
  let flags ← unpackLE 2 (pySlice header_str 2 4)
  let _origin := (flags >>> 14) &&& 3
  let _tagged := (flags >>> 13) &&& 1
  let _addressable := (flags >>> 12) &&& 1
  let _protocol := flags &&& 4095
  let source_id ← unpackLE 4 (pySlice header_str 4 8)
  let target_addr ← unpackBytes 6 (pySlice header_str 8 14)
  let response_flags ← unpackLE 1 (pySlice header_str 22 23)
  let ack_requested := response_flags &&& 2
  let response_requested := response_flags &&& 1
  let seq_num ← unpackLE 1 (pySlice header_str 23 24)
  let message_type ← unpackLE 2 (pySlice header_str 32 34)
  let payload ← decodePayload message_type payload_str
  pure ({ target_addr := target_addr, source_id := source_id, seq_num := seq_num,
          ack_requested := ack_requested != 0,
          response_requested := response_requested != 0 }, payload)

/-! ## Declared field ranges -/

/-- Declared ranges of an HSBK quadruple: four unsigned 16-bit fields. -/
def HSBK.wf (c : HSBK) : Prop :=
  c.hue < 2 ^ 16 ∧ c.saturation < 2 ^ 16 ∧ c.brightness < 2 ^ 16 ∧ c.kelvin < 2 ^ 16

/-- Declared ranges and shapes of the payload fields of each kind: every
integer field fits its wire width, labels are exactly 32 bytes, location and
group identifiers 16 bytes, an EchoRequest byte array 64 bytes, a
StateMultiZone reply carries exactly 8 colors and a
StateExtendedColorZones reply exactly 82.  The host/wifi info signal is a
32-bit binary32 pattern that is not a NaN (exponent bits all ones with a
nonzero mantissa), since a NaN never compares equal to itself in Python, and
its reserved1 field is a signed 16-bit integer. -/
def Payload.wf : Payload → Prop
  | .StateService service port => service < 2 ^ 8 ∧ port < 2 ^ 32
  | .StateHostInfo signal tx rx reserved1 =>
      signal < 2 ^ 32 ∧ tx < 2 ^ 32 ∧ rx < 2 ^ 32 ∧
      -32768 ≤ reserved1 ∧ reserved1 < 32768 ∧
      ¬(((signal >>> 23) &&& 255) = 255 ∧ signal &&& 8388607 ≠ 0)
  | .StateWifiInfo signal tx rx reserved1 =>
      signal < 2 ^ 32 ∧ tx < 2 ^ 32 ∧ rx < 2 ^ 32 ∧
      -32768 ≤ reserved1 ∧ reserved1 < 32768 ∧
      ¬(((signal >>> 23) &&& 255) = 255 ∧ signal &&& 8388607 ≠ 0)
  | .StateHostFirmware build reserved1 version =>
      build < 2 ^ 64 ∧ reserved1 < 2 ^ 64 ∧ version < 2 ^ 32
  | .StateWifiFirmware build reserved1 version =>
      build < 2 ^ 64 ∧ reserved1 < 2 ^ 64 ∧ version < 2 ^ 32
  | .SetPower power_level => power_level < 2 ^ 16
  | .StatePower power_level => power_level < 2 ^ 16
  | .SetLabel label => label.length = 32 ∧ ∀ b ∈ label, b < 256
  | .StateLabel label => label.length = 32 ∧ ∀ b ∈ label, b < 256
  | .StateVersion vendor product version =>
      vendor < 2 ^ 32 ∧ product < 2 ^ 32 ∧ version < 2 ^ 32
  | .StateInfo time uptime downtime =>
      time < 2 ^ 64 ∧ uptime < 2 ^ 64 ∧ downtime < 2 ^ 64
  | .StateLocation location label updated_at =>
      location.length = 16 ∧ (∀ b ∈ location, b < 256) ∧
      label.length = 32 ∧ (∀ b ∈ label, b < 256) ∧ updated_at < 2 ^ 64
  | .StateGroup group label updated_at =>
      group.length = 16 ∧ (∀ b ∈ group, b < 256) ∧
      label.length = 32 ∧ (∀ b ∈ label, b < 256) ∧ updated_at < 2 ^ 64
  | .EchoRequest byte_array => byte_array.length = 64 ∧ ∀ b ∈ byte_array, b < 256
  | .EchoResponse byte_array =>
      (∀ b ∈ byte_array, b < 256) ∧ 36 + byte_array.length < 2 ^ 16
  | .LightSetColor color duration => color.wf ∧ duration < 2 ^ 32
  | .LightState color reserved1 power_level label reserved2 =>
      color.wf ∧ reserved1 < 2 ^ 15 ∧ power_level < 2 ^ 16 ∧
      label.length = 32 ∧ (∀ b ∈ label, b < 256) ∧ reserved2 < 2 ^ 64
  | .LightSetPower power_level duration => power_level < 2 ^ 16 ∧ duration < 2 ^ 32
  | .LightStatePower power_level => power_level < 2 ^ 16
  | .LightStateInfrared infrared_brightness => infrared_brightness < 2 ^ 16
  | .LightSetInfrared infrared_brightness => infrared_brightness < 2 ^ 16
  | .SetHevCycle _ duration => duration < 2 ^ 32
  | .StateHevCycle duration remaining _ => duration < 2 ^ 32 ∧ remaining < 2 ^ 32
  | .SetHevCycleConfiguration _ duration => duration < 2 ^ 32
  | .StateHevCycleConfiguration _ duration => duration < 2 ^ 32
  | .StateLastHevCycleResult result => result < 2 ^ 8
  | .MultiZoneSetColorZones start_index end_index color duration apply =>
      start_index < 2 ^ 8 ∧ end_index < 2 ^ 8 ∧ color.wf ∧
      duration < 2 ^ 32 ∧ apply < 2 ^ 8
  | .MultiZoneStateZone count index color => count < 2 ^ 8 ∧ index < 2 ^ 8 ∧ color.wf
  | .MultiZoneStateMultiZone count index color =>
      count < 2 ^ 8 ∧ index < 2 ^ 8 ∧ color.length = 8 ∧ ∀ c ∈ color, c.wf
  | .MultiZoneSetMultiZoneEffect instanceid type speed duration direction =>
      instanceid < 2 ^ 32 ∧ type < 2 ^ 8 ∧ speed < 2 ^ 32 ∧
      duration < 2 ^ 64 ∧ direction < 2 ^ 32
  | .MultiZoneStateExtendedColorZones zones_count zone_index colors_count colors =>
      zones_count < 2 ^ 16 ∧ zone_index < 2 ^ 16 ∧ colors_count < 2 ^ 8 ∧
      colors.length = 82 ∧ ∀ c ∈ colors, c.wf
  | .StateRPower relay_index level => relay_index < 2 ^ 8 ∧ level < 2 ^ 32
  | _ => True

/-- Ranges of the header inputs: a canonical six-octet MAC, a 32-bit source
id and an 8-bit sequence number. -/
def Header.wf (h : Header) : Prop :=
  h.target_addr.length = 6 ∧ (∀ b ∈ h.target_addr, b < 256) ∧
  h.source_id < 2 ^ 32 ∧ h.seq_num < 2 ^ 8

/-- The kinds on which packing followed by unpacking is the identity.  The
registered kinds with a client-side serializer that are excluded, and why:

* GetService: its constructor replaces the target MAC with the broadcast MAC;
* SetReboot, MultiZoneSetColorZones (and the other kinds with no unpack
  branch, such as LightSetWaveform and the Tile and button families):
  unpack_lifx_message falls through to a bare Message, losing kind and
  payload;
* LightSetColor: the serializer emits a leading reserved byte which the
  unpack branch does not skip, shifting every field by one byte;
* LightState: the serializer packs reserved1 where the 64-bit reserved2
  field belongs;
* MultiZoneGetMultiZoneEffect: the serializer emits an empty payload but the
  unpack branch demands 31 bytes;
* MultiZoneSetMultiZoneEffect: its constructor draws a fresh random
  instanceid, and the unpack branch reads the direction from inside the
  parameter1 field and then raises KeyError in the constructor;
* MultiZoneStateMultiZoneEffect: the serializer raises TypeError;
* StateRPower: the serializer packs the level as 4 little-endian bytes, the
  unpack branch reads 2 big-endian bytes and raises on the 4-byte field;
* StateButton and StateButtonConfig: neither class has a serializer of its
  own, so each packs an empty payload which its own unpack branch rejects;
* TileStateTileEffect (a registered kind this development does not embed):
  its serializer calls payload_fields.append with two positional arguments
  and raises TypeError, and its unpack branch raises KeyError in the
  constructor, so neither direction works.

StateHostInfo and StateWifiInfo round-trip: the binary32 signal is carried
bit-exactly as its wire pattern, and Payload.wf requires a non-NaN pattern,
since a NaN never compares equal to itself under Python equality (packing
and unpacking any non-NaN pattern reproduces the same float, infinities
included).

The claim also requires labels of exactly 32 bytes, an EchoRequest array of
exactly 64 bytes and exactly 8 (respectively 82) colors in multizone state
replies; shorter values are zero-padded or length-extended by the serializer
and therefore do not round-trip verbatim. -/
def Payload.unpackInvertible : Payload → Bool
  | .GetService => false
  | .SetReboot => false
  | .LightSetColor _ _ => false
  | .LightState _ _ _ _ _ => false
  | .MultiZoneSetColorZones _ _ _ _ _ => false
  | .MultiZoneGetMultiZoneEffect => false
  | .MultiZoneSetMultiZoneEffect _ _ _ _ _ => false
  | .MultiZoneStateMultiZoneEffect _ _ _ _ _ => false
  | .StateRPower _ _ => false
  | .StateButton _ _ _ _ => false
  | .StateButtonConfig _ _ _ => false
  | .Unknown _ => false
  | _ => true

/-! ## Reading back what was packed -/

theorem unpackLE_leBytes_raw (w v : Nat) (hv : v < 256 ^ w) :
    unpackLE w (leBytes w v) = some v := by
  unfold unpackLE
  rw [if_pos (leBytes_length w v), leVal_leBytes w v hv]

theorem unpackBytes_of_length (w : Nat) (bs : List Nat) (h : bs.length = w) :
    unpackBytes w bs = some bs := by
  unfold unpackBytes
  rw [if_pos h]

/-- Reading the slice [i:j] out of pre ++ x ++ rest returns exactly x when
pre has length i and x has length j - i. -/
theorem pySlice_at (pre x rest : List Nat) (i j : Nat)
    (hpre : pre.length = i) (hx : x.length = j - i) :
    pySlice (pre ++ (x ++ rest)) i j = x := by
  rw [pySlice_append_skip pre (x ++ rest) i j (by omega)]
  rw [hpre, Nat.sub_self]
  exact pySlice_front x rest (j - i) hx

theorem frameFlags_lt (tagged : Nat) : frameFlags tagged < 2 ^ 16 := by
  have h1 : tagged &&& 1 ≤ 1 := Nat.and_le_right
  unfold frameFlags
  rcases Nat.le_one_iff_eq_zero_or_eq_one.mp h1 with h | h <;> rw [h] <;> decide

theorem respFlagsByte_lt (ack resp : Bool) : respFlagsByte ack resp < 2 ^ 8 := by
  cases ack <;> cases resp <;> decide

theorem respFlagsByte_ack (ack resp : Bool) :
    ((respFlagsByte ack resp &&& 2) != 0) = ack := by
  cases ack <;> cases resp <;> decide

theorem respFlagsByte_resp (ack resp : Bool) :
    ((respFlagsByte ack resp &&& 1) != 0) = resp := by
  cases ack <;> cases resp <;> decide

theorem getHeader_length (size tagged source_id : Nat) (target : List Nat)
    (ack resp : Bool) (seq t : Nat) :
    (getHeader size tagged source_id target ack resp seq t).length = 36 := by
  simp [getHeader, getFrame, getFrameAddr, getProtocolHeader, leBytes_length]

/-- Unpacking a packed header recovers the header fields and hands the
payload bytes to the payload dispatch unchanged. -/
theorem unpack_getHeader (target : List Nat) (source_id seq_num tagged t : Nat)
    (ack resp : Bool) (pl : List Nat)
    (htl : target.length = 6) (htb : ∀ b ∈ target, b < 256)
    (hsrc : source_id < 2 ^ 32) (hseq : seq_num < 2 ^ 8) (ht : t < 2 ^ 16)
    (hsz : 36 + pl.length < 2 ^ 16) :
    unpackLifxMessage
        (getHeader (36 + pl.length) tagged source_id target ack resp seq_num t ++ pl)
      = (decodePayload t pl).bind (fun q =>
          some ({ target_addr := target, source_id := source_id,
                  seq_num := seq_num, ack_requested := ack,
                  response_requested := resp }, q)) := by
  have hmac : leBytes 8 (convertMACToInt target) = target ++ leBytes 2 0 := by
    have h := leBytes_leVal_pad target 2 htb
    rw [htl] at h
    exact h
  set H := getHeader (36 + pl.length) tagged source_id target ack resp seq_num t with hHdef
  have hHlen : H.length = 36 := getHeader_length _ _ _ _ _ _ _ _
  have hcut : pySlice (H ++ pl) 0 36 = H := pySlice_front _ _ _ hHlen
  have hdrop : (H ++ pl).drop 36 = pl := by
    rw [← hHlen]; exact drop_append_length H pl
  have hshape : H =
      leBytes 2 (36 + pl.length) ++
      (leBytes 2 (frameFlags tagged) ++
      (leBytes 4 source_id ++
      (target ++
      (leBytes 2 0 ++
      (List.replicate 6 0 ++
      (leBytes 1 (respFlagsByte ack resp) ++
      (leBytes 1 seq_num ++
      (leBytes 8 0 ++
      (leBytes 2 t ++ leBytes 2 0))))))))) := by
    rw [hHdef]
    simp only [getHeader, getFrame, getFrameAddr, getProtocolHeader, hmac,
      List.append_assoc]
  have r1 : unpackLE 2 (pySlice H 0 2) = some (36 + pl.length) := by
    rw [hshape, pySlice_front _ _ 2 (leBytes_length 2 _)]
    exact unpackLE_leBytes_raw 2 _ hsz
  have r2 : unpackLE 2 (pySlice H 2 4) = some (frameFlags tagged) := by
    rw [hshape]
    simp only [pySlice_append_skip, leBytes_length, List.length_replicate, htl,
      pySlice_front, Nat.reduceSub, Nat.reduceLeDiff]
    exact unpackLE_leBytes_raw 2 _ (frameFlags_lt tagged)
  have r3 : unpackLE 4 (pySlice H 4 8) = some source_id := by
    rw [hshape]
    simp only [pySlice_append_skip, leBytes_length, List.length_replicate, htl,
      pySlice_front, Nat.reduceSub, Nat.reduceLeDiff]
    exact unpackLE_leBytes_raw 4 _ hsrc
  have r4 : unpackBytes 6 (pySlice H 8 14) = some target := by
    rw [hshape]
    simp only [pySlice_append_skip, leBytes_length, List.length_replicate, htl,
      pySlice_front, Nat.reduceSub, Nat.reduceLeDiff]
    exact unpackBytes_of_length 6 target htl
  have r5 : unpackLE 1 (pySlice H 22 23) = some (respFlagsByte ack resp) := by
    rw [hshape]
    simp only [pySlice_append_skip, leBytes_length, List.length_replicate, htl,
      pySlice_front, Nat.reduceSub, Nat.reduceLeDiff]
    exact unpackLE_leBytes_raw 1 _ (respFlagsByte_lt ack resp)
  have r6 : unpackLE 1 (pySlice H 23 24) = some seq_num := by
    rw [hshape]
    simp only [pySlice_append_skip, leBytes_length, List.length_replicate, htl,
      pySlice_front, Nat.reduceSub, Nat.reduceLeDiff]
    exact unpackLE_leBytes_raw 1 _ hseq
  have r7 : unpackLE 2 (pySlice H 32 34) = some t := by
    rw [hshape]
    simp only [pySlice_append_skip, leBytes_length, List.length_replicate, htl,
      pySlice_front, Nat.reduceSub, Nat.reduceLeDiff]
    exact unpackLE_leBytes_raw 2 _ ht
  unfold unpackLifxMessage
  simp only [HEADER_SIZE_BYTES, hcut, hdrop, r1, r2, r3, r4, r5, r6, r7,
    Option.bind_eq_bind, Option.some_bind]
  rw [respFlagsByte_ack ack resp, respFlagsByte_resp ack resp]
  rfl

theorem packHSBK_length (c : HSBK) : (packHSBK c).length = 8 := by
  simp [packHSBK, leBytes_length]

theorem unpackHSBK_packHSBK (c : HSBK) (hc : c.wf) :
    unpackHSBK (packHSBK c) = some c := by
  obtain ⟨h1, h2, h3, h4⟩ := hc
  unfold unpackHSBK
  rw [if_pos (packHSBK_length c)]
  unfold packHSBK
  simp only [pySlice_append_skip, pySlice_front, pySlice_self, leBytes_length,
    Nat.reduceSub, Nat.reduceLeDiff, List.append_assoc]
  rw [leVal_leBytes 2 c.hue (by omega), leVal_leBytes 2 c.saturation (by omega),
    leVal_leBytes 2 c.brightness (by omega), leVal_leBytes 2 c.kelvin (by omega)]

/-- Reading back a block of consecutively packed colors. -/
theorem readColors_of_flatten (colors : List HSBK) (pre : List Nat) (off : Nat)
    (hpre : pre.length = off) (hwf : ∀ c ∈ colors, c.wf) :
    readColors colors.length off (pre ++ (colors.map packHSBK).flatten)
      = some colors := by
  induction colors generalizing pre off with
  | nil => simp [readColors]
  | cons c cs ih =>
    have hc : c.wf := hwf c (by simp)
    have hcs : ∀ x ∈ cs, x.wf := fun x hx => hwf x (by simp [hx])
    have hsplit : pre ++ ((c :: cs).map packHSBK).flatten
        = pre ++ (packHSBK c ++ (cs.map packHSBK).flatten) := by
      simp
    rw [List.length_cons, hsplit]
    unfold readColors
    rw [pySlice_at pre (packHSBK c) _ off (off + 8) hpre
      (by rw [packHSBK_length]; omega)]
    rw [unpackHSBK_packHSBK c hc]
    have hre : pre ++ (packHSBK c ++ (cs.map packHSBK).flatten)
        = (pre ++ packHSBK c) ++ (cs.map packHSBK).flatten := by
      simp
    rw [hre, ih (pre ++ packHSBK c) (off + 8)
      (by simp [packHSBK_length, hpre]) hcs]
    rfl

/-! ## Per-kind payload round trips: each unpack branch inverts the
corresponding get_payload serializer on in-range fields. -/

theorem decodePayload_StateService (service port : Nat)
    (h1 : service < 2 ^ 8) (h2 : port < 2 ^ 32) :
    decodePayload 3 (leBytes 1 service ++ leBytes 4 port)
      = some (.StateService service port) := by
  unfold decodePayload
  simp only [pySlice_append_skip, pySlice_front, pySlice_self, leBytes_length,
    Nat.reduceSub, Nat.reduceLeDiff, Nat.reduceEqDiff, reduceIte]
  rw [unpackLE_leBytes_raw 1 service (by omega), unpackLE_leBytes_raw 4 port (by omega)]
  rfl

/-- Reading back a packed two-complement 16-bit value recovers the signed
integer. -/
theorem signed16_emod (r : Int) (h4 : -32768 ≤ r) (h5 : r < 32768) :
    signed16 (r % 65536).toNat = r := by
  unfold signed16
  by_cases hc : (r % 65536).toNat < 32768
  · rw [if_pos hc]
    omega
  · rw [if_neg hc]
    omega

theorem decodePayload_StateHostInfo (s t x : Nat) (r : Int)
    (h1 : s < 2 ^ 32) (h2 : t < 2 ^ 32) (h3 : x < 2 ^ 32)
    (h4 : -32768 ≤ r) (h5 : r < 32768) :
    decodePayload 13
        (leBytes 4 s ++ leBytes 4 t ++ leBytes 4 x ++
          leBytes 2 (r % 65536).toNat)
      = some (.StateHostInfo s t x r) := by
  unfold decodePayload
  simp only [pySlice_append_skip, pySlice_front, pySlice_self, leBytes_length,
    Nat.reduceSub, Nat.reduceLeDiff, Nat.reduceEqDiff, reduceIte, List.append_assoc]
  rw [unpackLE_leBytes_raw 4 s (by omega), unpackLE_leBytes_raw 4 t (by omega),
    unpackLE_leBytes_raw 4 x (by omega),
    unpackLE_leBytes_raw 2 (r % 65536).toNat (by omega)]
  simp only [Option.bind_eq_bind, Option.some_bind, signed16_emod r h4 h5]
  rfl

theorem decodePayload_StateWifiInfo (s t x : Nat) (r : Int)
    (h1 : s < 2 ^ 32) (h2 : t < 2 ^ 32) (h3 : x < 2 ^ 32)
    (h4 : -32768 ≤ r) (h5 : r < 32768) :
    decodePayload 17
        (leBytes 4 s ++ leBytes 4 t ++ leBytes 4 x ++
          leBytes 2 (r % 65536).toNat)
      = some (.StateWifiInfo s t x r) := by
  unfold decodePayload
  simp only [pySlice_append_skip, pySlice_front, pySlice_self, leBytes_length,
    Nat.reduceSub, Nat.reduceLeDiff, Nat.reduceEqDiff, reduceIte, List.append_assoc]
  rw [unpackLE_leBytes_raw 4 s (by omega), unpackLE_leBytes_raw 4 t (by omega),
    unpackLE_leBytes_raw 4 x (by omega),
    unpackLE_leBytes_raw 2 (r % 65536).toNat (by omega)]
  simp only [Option.bind_eq_bind, Option.some_bind, signed16_emod r h4 h5]
  rfl

theorem decodePayload_StateHostFirmware (b r v : Nat)
    (hb : b < 2 ^ 64) (hr : r < 2 ^ 64) (hv : v < 2 ^ 32) :
    decodePayload 15 (leBytes 8 b ++ leBytes 8 r ++ leBytes 4 v)
      = some (.StateHostFirmware b r v) := by
  unfold decodePayload
  simp only [pySlice_append_skip, pySlice_front, pySlice_self, leBytes_length,
    Nat.reduceSub, Nat.reduceLeDiff, Nat.reduceEqDiff, reduceIte, List.append_assoc]
  rw [unpackLE_leBytes_raw 8 b (by omega), unpackLE_leBytes_raw 8 r (by omega),
    unpackLE_leBytes_raw 4 v (by omega)]
  rfl

theorem decodePayload_StateWifiFirmware (b r v : Nat)
    (hb : b < 2 ^ 64) (hr : r < 2 ^ 64) (hv : v < 2 ^ 32) :
    decodePayload 19 (leBytes 8 b ++ leBytes 8 r ++ leBytes 4 v)
      = some (.StateWifiFirmware b r v) := by
  unfold decodePayload
  simp only [pySlice_append_skip, pySlice_front, pySlice_self, leBytes_length,
    Nat.reduceSub, Nat.reduceLeDiff, Nat.reduceEqDiff, reduceIte, List.append_assoc]
  rw [unpackLE_leBytes_raw 8 b (by omega), unpackLE_leBytes_raw 8 r (by omega),
    unpackLE_leBytes_raw 4 v (by omega)]
  rfl

theorem decodePayload_SetPower (p : Nat) (hp : p < 2 ^ 16) :
    decodePayload 21 (leBytes 2 p) = some (.SetPower p) := by
  unfold decodePayload
  simp only [Nat.reduceEqDiff, reduceIte]
  rw [pySlice_self _ 2 (leBytes_length 2 p), unpackLE_leBytes_raw 2 p (by omega)]
  rfl

theorem decodePayload_StatePower (p : Nat) (hp : p < 2 ^ 16) :
    decodePayload 22 (leBytes 2 p) = some (.StatePower p) := by
  unfold decodePayload
  simp only [Nat.reduceEqDiff, reduceIte]
  rw [pySlice_self _ 2 (leBytes_length 2 p), unpackLE_leBytes_raw 2 p (by omega)]
  rfl

theorem labelPad32_of_length (label : List Nat) (h : label.length = 32) :
    labelPad32 label = label := by
  simp [labelPad32, h]

theorem decodePayload_SetLabel (label : List Nat) (h : label.length = 32) :
    decodePayload 24 (labelPad32 label) = some (.SetLabel label) := by
  unfold decodePayload
  simp only [Nat.reduceEqDiff, reduceIte]
  rw [labelPad32_of_length label h, pySlice_self _ 32 h, unpackBytes_of_length 32 label h]
  rfl

theorem decodePayload_StateLabel (label : List Nat) (h : label.length = 32) :
    decodePayload 25 (labelPad32 label) = some (.StateLabel label) := by
  unfold decodePayload
  simp only [Nat.reduceEqDiff, reduceIte]
  rw [labelPad32_of_length label h, pySlice_self _ 32 h, unpackBytes_of_length 32 label h]
  rfl

theorem decodePayload_StateVersion (a b c : Nat)
    (ha : a < 2 ^ 32) (hb : b < 2 ^ 32) (hc : c < 2 ^ 32) :
    decodePayload 33 (leBytes 4 a ++ leBytes 4 b ++ leBytes 4 c)
      = some (.StateVersion a b c) := by
  unfold decodePayload
  simp only [pySlice_append_skip, pySlice_front, pySlice_self, leBytes_length,
    Nat.reduceSub, Nat.reduceLeDiff, Nat.reduceEqDiff, reduceIte, List.append_assoc]
  rw [unpackLE_leBytes_raw 4 a (by omega), unpackLE_leBytes_raw 4 b (by omega),
    unpackLE_leBytes_raw 4 c (by omega)]
  rfl

theorem decodePayload_StateInfo (a b c : Nat)
    (ha : a < 2 ^ 64) (hb : b < 2 ^ 64) (hc : c < 2 ^ 64) :
    decodePayload 35 (leBytes 8 a ++ leBytes 8 b ++ leBytes 8 c)
      = some (.StateInfo a b c) := by
  unfold decodePayload
  simp only [pySlice_append_skip, pySlice_front, pySlice_self, leBytes_length,
    Nat.reduceSub, Nat.reduceLeDiff, Nat.reduceEqDiff, reduceIte, List.append_assoc]
  rw [unpackLE_leBytes_raw 8 a (by omega), unpackLE_leBytes_raw 8 b (by omega),
    unpackLE_leBytes_raw 8 c (by omega)]
  rfl

theorem decodePayload_StateLocation (location label : List Nat) (u : Nat)
    (hloc : location.length = 16) (hlab : label.length = 32) (hu : u < 2 ^ 64) :
    decodePayload 50 (location ++ labelPad32 label ++ leBytes 8 u)
      = some (.StateLocation location label u) := by
  unfold decodePayload
  simp only [Nat.reduceEqDiff, reduceIte]
  rw [labelPad32_of_length label hlab]
  simp only [pySlice_append_skip, pySlice_front, pySlice_self, leBytes_length,
    hloc, hlab, Nat.reduceSub, Nat.reduceLeDiff, List.append_assoc]
  rw [unpackBytes_of_length 16 location hloc, unpackBytes_of_length 32 label hlab,
    unpackLE_leBytes_raw 8 u (by omega)]
  rfl

theorem decodePayload_StateGroup (group label : List Nat) (u : Nat)
    (hg : group.length = 16) (hlab : label.length = 32) (hu : u < 2 ^ 64) :
    decodePayload 53 (group ++ labelPad32 label ++ leBytes 8 u)
      = some (.StateGroup group label u) := by
  unfold decodePayload
  simp only [Nat.reduceEqDiff, reduceIte]
  rw [labelPad32_of_length label hlab]
  simp only [pySlice_append_skip, pySlice_front, pySlice_self, leBytes_length,
    hg, hlab, Nat.reduceSub, Nat.reduceLeDiff, List.append_assoc]
  rw [unpackBytes_of_length 16 group hg, unpackBytes_of_length 32 label hlab,
    unpackLE_leBytes_raw 8 u (by omega)]
  rfl

theorem decodePayload_EchoRequest (ba : List Nat) (h : ba.length = 64) :
    decodePayload 58 (echoRequestBytes ba) = some (.EchoRequest ba) := by
  unfold decodePayload
  simp only [Nat.reduceEqDiff, reduceIte]
  unfold echoRequestBytes
  rw [if_neg (by omega), if_neg (by omega)]

theorem decodePayload_EchoResponse (ba : List Nat) :
    decodePayload 59 ba = some (.EchoResponse ba) := by
  unfold decodePayload
  simp only [Nat.reduceEqDiff, reduceIte]

theorem decodePayload_LightSetPower (p d : Nat) (hp : p < 2 ^ 16) (hd : d < 2 ^ 32) :
    decodePayload 117 (leBytes 2 p ++ leBytes 4 d) = some (.LightSetPower p d) := by
  unfold decodePayload
  simp only [pySlice_append_skip, pySlice_front, pySlice_self, leBytes_length,
    Nat.reduceSub, Nat.reduceLeDiff, Nat.reduceEqDiff, reduceIte]
  rw [unpackLE_leBytes_raw 2 p (by omega), unpackLE_leBytes_raw 4 d (by omega)]
  rfl

theorem decodePayload_LightStatePower (p : Nat) (hp : p < 2 ^ 16) :
    decodePayload 118 (leBytes 2 p) = some (.LightStatePower p) := by
  unfold decodePayload
  simp only [Nat.reduceEqDiff, reduceIte]
  rw [pySlice_self _ 2 (leBytes_length 2 p), unpackLE_leBytes_raw 2 p (by omega)]
  rfl

theorem decodePayload_LightStateInfrared (b : Nat) (hb : b < 2 ^ 16) :
    decodePayload 121 (leBytes 2 b) = some (.LightStateInfrared b) := by
  unfold decodePayload
  simp only [Nat.reduceEqDiff, reduceIte]
  rw [pySlice_self _ 2 (leBytes_length 2 b), unpackLE_leBytes_raw 2 b (by omega)]
  rfl

theorem decodePayload_LightSetInfrared (b : Nat) (hb : b < 2 ^ 16) :
    decodePayload 122 (leBytes 2 b) = some (.LightSetInfrared b) := by
  unfold decodePayload
  simp only [Nat.reduceEqDiff, reduceIte]
  rw [pySlice_self _ 2 (leBytes_length 2 b), unpackLE_leBytes_raw 2 b (by omega)]
  rfl

theorem decodePayload_SetHevCycle (e : Bool) (d : Nat) (hd : d < 2 ^ 32) :
    decodePayload 143 (leBytes 1 (if e then 1 else 0) ++ leBytes 4 d)
      = some (.SetHevCycle e d) := by
  unfold decodePayload
  simp only [pySlice_append_skip, pySlice_front, pySlice_self, leBytes_length,
    Nat.reduceSub, Nat.reduceLeDiff, Nat.reduceEqDiff, reduceIte]
  rw [unpackLE_leBytes_raw 1 (if e then 1 else 0) (by cases e <;> decide),
    unpackLE_leBytes_raw 4 d (by omega)]
  cases e <;> rfl

theorem decodePayload_StateHevCycle (d r : Nat) (lp : Bool)
    (hd : d < 2 ^ 32) (hr : r < 2 ^ 32) :
    decodePayload 144
        (leBytes 4 d ++ leBytes 4 r ++ leBytes 1 (if lp then 1 else 0))
      = some (.StateHevCycle d r lp) := by
  unfold decodePayload
  simp only [pySlice_append_skip, pySlice_front, pySlice_self, leBytes_length,
    Nat.reduceSub, Nat.reduceLeDiff, Nat.reduceEqDiff, reduceIte, List.append_assoc]
  rw [unpackLE_leBytes_raw 4 d (by omega), unpackLE_leBytes_raw 4 r (by omega),
    unpackLE_leBytes_raw 1 (if lp then 1 else 0) (by cases lp <;> decide)]
  cases lp <;> rfl

theorem decodePayload_SetHevCycleConfiguration (i : Bool) (d : Nat) (hd : d < 2 ^ 32) :
    decodePayload 146 (leBytes 1 (if i then 1 else 0) ++ leBytes 4 d)
      = some (.SetHevCycleConfiguration i d) := by
  unfold decodePayload
  simp only [pySlice_append_skip, pySlice_front, pySlice_self, leBytes_length,
    Nat.reduceSub, Nat.reduceLeDiff, Nat.reduceEqDiff, reduceIte]
  rw [unpackLE_leBytes_raw 1 (if i then 1 else 0) (by cases i <;> decide),
    unpackLE_leBytes_raw 4 d (by omega)]
  cases i <;> rfl

theorem decodePayload_StateHevCycleConfiguration (i : Bool) (d : Nat) (hd : d < 2 ^ 32) :
    decodePayload 147 (leBytes 1 (if i then 1 else 0) ++ leBytes 4 d)
      = some (.StateHevCycleConfiguration i d) := by
  unfold decodePayload
  simp only [pySlice_append_skip, pySlice_front, pySlice_self, leBytes_length,
    Nat.reduceSub, Nat.reduceLeDiff, Nat.reduceEqDiff, reduceIte]
  rw [unpackLE_leBytes_raw 1 (if i then 1 else 0) (by cases i <;> decide),
    unpackLE_leBytes_raw 4 d (by omega)]
  cases i <;> rfl

theorem decodePayload_StateLastHevCycleResult (r : Nat) (hr : r < 2 ^ 8) :
    decodePayload 149 (leBytes 1 r) = some (.StateLastHevCycleResult r) := by
  unfold decodePayload
  simp only [Nat.reduceEqDiff, reduceIte]
  rw [pySlice_self _ 1 (leBytes_length 1 r), unpackLE_leBytes_raw 1 r (by omega)]
  rfl

theorem decodePayload_MultiZoneStateZone (c i : Nat) (col : HSBK)
    (hc : c < 2 ^ 8) (hi : i < 2 ^ 8) (hcol : col.wf) :
    decodePayload 503 (leBytes 1 c ++ leBytes 1 i ++ packHSBK col)
      = some (.MultiZoneStateZone c i col) := by
  unfold decodePayload
  simp only [pySlice_append_skip, pySlice_front, pySlice_self, leBytes_length,
    packHSBK_length, Nat.reduceSub, Nat.reduceLeDiff, Nat.reduceEqDiff, reduceIte,
    List.append_assoc]
  rw [unpackLE_leBytes_raw 1 c (by omega), unpackLE_leBytes_raw 1 i (by omega),
    unpackHSBK_packHSBK col hcol]
  rfl

theorem decodePayload_MultiZoneStateMultiZone (c i : Nat) (colors : List HSBK)
    (hc : c < 2 ^ 8) (hi : i < 2 ^ 8) (hlen : colors.length = 8)
    (hwf : ∀ x ∈ colors, x.wf) :
    decodePayload 506 (leBytes 1 c ++ leBytes 1 i ++ (colors.map packHSBK).flatten)
      = some (.MultiZoneStateMultiZone c i colors) := by
  unfold decodePayload
  simp only [Nat.reduceEqDiff, reduceIte]
  have hcols : readColors 8 2
      (leBytes 1 c ++ leBytes 1 i ++ (colors.map packHSBK).flatten) = some colors := by
    have h := readColors_of_flatten colors (leBytes 1 c ++ leBytes 1 i) 2
      (by simp [leBytes_length]) hwf
    rw [hlen] at h
    rw [List.append_assoc] at h ⊢
    exact h
  simp only [pySlice_append_skip, pySlice_front, pySlice_self, leBytes_length,
    Nat.reduceSub, Nat.reduceLeDiff, List.append_assoc]
  rw [unpackLE_leBytes_raw 1 c (by omega), unpackLE_leBytes_raw 1 i (by omega)]
  rw [List.append_assoc] at hcols
  rw [hcols]
  rfl

theorem decodePayload_MultiZoneStateExtendedColorZones (zc zi cc : Nat)
    (colors : List HSBK) (hzc : zc < 2 ^ 16) (hzi : zi < 2 ^ 16) (hcc : cc < 2 ^ 8)
    (hlen : colors.length = 82) (hwf : ∀ x ∈ colors, x.wf) :
    decodePayload 512
        (leBytes 2 zc ++ leBytes 2 zi ++ leBytes 1 cc ++ (colors.map packHSBK).flatten)
      = some (.MultiZoneStateExtendedColorZones zc zi cc colors) := by
  unfold decodePayload
  simp only [Nat.reduceEqDiff, reduceIte]
  have hcols : readColors 82 5
      (leBytes 2 zc ++ (leBytes 2 zi ++ (leBytes 1 cc ++ (colors.map packHSBK).flatten)))
        = some colors := by
    have h := readColors_of_flatten colors (leBytes 2 zc ++ leBytes 2 zi ++ leBytes 1 cc) 5
      (by simp [leBytes_length]) hwf
    rw [hlen] at h
    simpa [List.append_assoc] using h
  simp only [pySlice_append_skip, pySlice_front, pySlice_self, leBytes_length,
    Nat.reduceSub, Nat.reduceLeDiff, List.append_assoc]
  rw [unpackLE_leBytes_raw 2 zc (by omega), unpackLE_leBytes_raw 2 zi (by omega),
    unpackLE_leBytes_raw 1 cc (by omega), hcols]
  rfl

theorem flatten_map_packHSBK_length (colors : List HSBK) :
    ((colors.map packHSBK).flatten).length = 8 * colors.length := by
  induction colors with
  | nil => simp
  | cons c cs ih => simp [packHSBK_length, ih]; ring

/-- The canonical shape of a packed message: header with size 36 plus the
payload length and the derived tagged bit, followed by the payload. -/
def packedShape (h : Header) (t : Nat) (pl : List Nat) : List Nat :=
  getHeader (36 + pl.length) (if h.target_addr = BROADCAST_MAC then 1 else 0)
    h.source_id h.target_addr h.ack_requested h.response_requested h.seq_num t ++ pl

/-- C1 (amended).  For every kind whose serializer and unpack branch are
mutually inverse (Payload.unpackInvertible, which excludes GetService, the
kinds without an unpack branch and the kinds with mismatched or raising
serializers listed there) and every payload whose fields lie within their
declared ranges and shapes, packing the message and unpacking the packed
bytes yields a message of the same kind carrying the same target MAC,
source_id, sequence number, payload fields, ack_requested and
response_requested values. -/
theorem c1_roundtrip (h : Header) (p : Payload) (hw : h.wf) (pw : p.wf)
    (hs : p.unpackInvertible = true) :
    ∃ bs, generatePackedMessage h p = some bs ∧
      unpackLifxMessage bs = some (h, p) := by
  obtain ⟨htl, htb, hsrc, hseq⟩ := hw
  cases p with
  | GetService => exact Bool.noConfusion hs
  | SetReboot => exact Bool.noConfusion hs
  | LightSetColor c d => exact Bool.noConfusion hs
  | LightState c r pw lb r2 => exact Bool.noConfusion hs
  | MultiZoneSetColorZones a b c d e => exact Bool.noConfusion hs
  | MultiZoneGetMultiZoneEffect => exact Bool.noConfusion hs
  | MultiZoneSetMultiZoneEffect a b c d e => exact Bool.noConfusion hs
  | MultiZoneStateMultiZoneEffect a b c d e => exact Bool.noConfusion hs
  | StateRPower a b => exact Bool.noConfusion hs
  | StateButton a b c d => exact Bool.noConfusion hs
  | StateButtonConfig a b c => exact Bool.noConfusion hs
  | Unknown t => exact Bool.noConfusion hs
  | GetHostInfo =>
    refine ⟨packedShape h 12 [], rfl, ?_⟩
    unfold packedShape
    rw [unpack_getHeader _ _ _ _ _ _ _ _ htl htb hsrc hseq (by decide) (by decide)]
    rfl
  | StateHostInfo s t x r =>
    obtain ⟨h1, h2, h3, h4, h5, _⟩ := pw
    refine ⟨packedShape h 13 (leBytes 4 s ++ leBytes 4 t ++ leBytes 4 x ++
      leBytes 2 (r % 65536).toNat), rfl, ?_⟩
    unfold packedShape
    rw [unpack_getHeader _ _ _ _ _ _ _ _ htl htb hsrc hseq (by decide)
      (by simp [leBytes_length])]
    rw [decodePayload_StateHostInfo s t x r h1 h2 h3 h4 h5]
    rfl
  | StateWifiInfo s t x r =>
    obtain ⟨h1, h2, h3, h4, h5, _⟩ := pw
    refine ⟨packedShape h 17 (leBytes 4 s ++ leBytes 4 t ++ leBytes 4 x ++
      leBytes 2 (r % 65536).toNat), rfl, ?_⟩
    unfold packedShape
    rw [unpack_getHeader _ _ _ _ _ _ _ _ htl htb hsrc hseq (by decide)
      (by simp [leBytes_length])]
    rw [decodePayload_StateWifiInfo s t x r h1 h2 h3 h4 h5]
    rfl
  | GetHostFirmware =>
    refine ⟨packedShape h 14 [], rfl, ?_⟩
    unfold packedShape
    rw [unpack_getHeader _ _ _ _ _ _ _ _ htl htb hsrc hseq (by decide) (by decide)]
    rfl
  | GetWifiInfo =>
    refine ⟨packedShape h 16 [], rfl, ?_⟩
    unfold packedShape
    rw [unpack_getHeader _ _ _ _ _ _ _ _ htl htb hsrc hseq (by decide) (by decide)]
    rfl
  | GetWifiFirmware =>
    refine ⟨packedShape h 18 [], rfl, ?_⟩
    unfold packedShape
    rw [unpack_getHeader _ _ _ _ _ _ _ _ htl htb hsrc hseq (by decide) (by decide)]
    rfl
  | GetPower =>
    refine ⟨packedShape h 20 [], rfl, ?_⟩
    unfold packedShape
    rw [unpack_getHeader _ _ _ _ _ _ _ _ htl htb hsrc hseq (by decide) (by decide)]
    rfl
  | GetLabel =>
    refine ⟨packedShape h 23 [], rfl, ?_⟩
    unfold packedShape
    rw [unpack_getHeader _ _ _ _ _ _ _ _ htl htb hsrc hseq (by decide) (by decide)]
    rfl
  | GetVersion =>
    refine ⟨packedShape h 32 [], rfl, ?_⟩
    unfold packedShape
    rw [unpack_getHeader _ _ _ _ _ _ _ _ htl htb hsrc hseq (by decide) (by decide)]
    rfl
  | GetInfo =>
    refine ⟨packedShape h 34 [], rfl, ?_⟩
    unfold packedShape
    rw [unpack_getHeader _ _ _ _ _ _ _ _ htl htb hsrc hseq (by decide) (by decide)]
    rfl
  | Acknowledgement =>
    refine ⟨packedShape h 45 [], rfl, ?_⟩
    unfold packedShape
    rw [unpack_getHeader _ _ _ _ _ _ _ _ htl htb hsrc hseq (by decide) (by decide)]
    rfl
  | GetLocation =>
    refine ⟨packedShape h 48 [], rfl, ?_⟩
    unfold packedShape
    rw [unpack_getHeader _ _ _ _ _ _ _ _ htl htb hsrc hseq (by decide) (by decide)]
    rfl
  | GetGroup =>
    refine ⟨packedShape h 51 [], rfl, ?_⟩
    unfold packedShape
    rw [unpack_getHeader _ _ _ _ _ _ _ _ htl htb hsrc hseq (by decide) (by decide)]
    rfl
  | LightGet =>
    refine ⟨packedShape h 101 [], rfl, ?_⟩
    unfold packedShape
    rw [unpack_getHeader _ _ _ _ _ _ _ _ htl htb hsrc hseq (by decide) (by decide)]
    rfl
  | LightGetPower =>
    refine ⟨packedShape h 116 [], rfl, ?_⟩
    unfold packedShape
    rw [unpack_getHeader _ _ _ _ _ _ _ _ htl htb hsrc hseq (by decide) (by decide)]
    rfl
  | LightGetInfrared =>
    refine ⟨packedShape h 120 [], rfl, ?_⟩
    unfold packedShape
    rw [unpack_getHeader _ _ _ _ _ _ _ _ htl htb hsrc hseq (by decide) (by decide)]
    rfl
  | GetHevCycle =>
    refine ⟨packedShape h 142 [], rfl, ?_⟩
    unfold packedShape
    rw [unpack_getHeader _ _ _ _ _ _ _ _ htl htb hsrc hseq (by decide) (by decide)]
    rfl
  | GetHevCycleConfiguration =>
    refine ⟨packedShape h 145 [], rfl, ?_⟩
    unfold packedShape
    rw [unpack_getHeader _ _ _ _ _ _ _ _ htl htb hsrc hseq (by decide) (by decide)]
    rfl
  | GetLastHevCycleResult =>
    refine ⟨packedShape h 148 [], rfl, ?_⟩
    unfold packedShape
    rw [unpack_getHeader _ _ _ _ _ _ _ _ htl htb hsrc hseq (by decide) (by decide)]
    rfl
  | StateService service port =>
    obtain ⟨h1, h2⟩ := pw
    refine ⟨packedShape h 3 (leBytes 1 service ++ leBytes 4 port), rfl, ?_⟩
    unfold packedShape
    rw [unpack_getHeader _ _ _ _ _ _ _ _ htl htb hsrc hseq (by decide)
      (by simp [leBytes_length])]
    rw [decodePayload_StateService service port h1 h2]
    rfl
  | StateHostFirmware b r v =>
    obtain ⟨h1, h2, h3⟩ := pw
    refine ⟨packedShape h 15 (leBytes 8 b ++ leBytes 8 r ++ leBytes 4 v), rfl, ?_⟩
    unfold packedShape
    rw [unpack_getHeader _ _ _ _ _ _ _ _ htl htb hsrc hseq (by decide)
      (by simp [leBytes_length])]
    rw [decodePayload_StateHostFirmware b r v h1 h2 h3]
    rfl
  | StateWifiFirmware b r v =>
    obtain ⟨h1, h2, h3⟩ := pw
    refine ⟨packedShape h 19 (leBytes 8 b ++ leBytes 8 r ++ leBytes 4 v), rfl, ?_⟩
    unfold packedShape
    rw [unpack_getHeader _ _ _ _ _ _ _ _ htl htb hsrc hseq (by decide)
      (by simp [leBytes_length])]
    rw [decodePayload_StateWifiFirmware b r v h1 h2 h3]
    rfl
  | SetPower pwr =>
    refine ⟨packedShape h 21 (leBytes 2 pwr), rfl, ?_⟩
    unfold packedShape
    rw [unpack_getHeader _ _ _ _ _ _ _ _ htl htb hsrc hseq (by decide)
      (by simp [leBytes_length])]
    rw [decodePayload_SetPower pwr pw]
    rfl
  | StatePower pwr =>
    refine ⟨packedShape h 22 (leBytes 2 pwr), rfl, ?_⟩
    unfold packedShape
    rw [unpack_getHeader _ _ _ _ _ _ _ _ htl htb hsrc hseq (by decide)
      (by simp [leBytes_length])]
    rw [decodePayload_StatePower pwr pw]
    rfl
  | SetLabel label =>
    obtain ⟨h1, _⟩ := pw
    refine ⟨packedShape h 24 (labelPad32 label), rfl, ?_⟩
    unfold packedShape
    rw [unpack_getHeader _ _ _ _ _ _ _ _ htl htb hsrc hseq (by decide)
      (by simp [labelPad32, h1])]
    rw [decodePayload_SetLabel label h1]
    rfl
  | StateLabel label =>
    obtain ⟨h1, _⟩ := pw
    refine ⟨packedShape h 25 (labelPad32 label), rfl, ?_⟩
    unfold packedShape
    rw [unpack_getHeader _ _ _ _ _ _ _ _ htl htb hsrc hseq (by decide)
      (by simp [labelPad32, h1])]
    rw [decodePayload_StateLabel label h1]
    rfl
  | StateVersion a b c =>
    obtain ⟨h1, h2, h3⟩ := pw
    refine ⟨packedShape h 33 (leBytes 4 a ++ leBytes 4 b ++ leBytes 4 c), rfl, ?_⟩
    unfold packedShape
    rw [unpack_getHeader _ _ _ _ _ _ _ _ htl htb hsrc hseq (by decide)
      (by simp [leBytes_length])]
    rw [decodePayload_StateVersion a b c h1 h2 h3]
    rfl
  | StateInfo a b c =>
    obtain ⟨h1, h2, h3⟩ := pw
    refine ⟨packedShape h 35 (leBytes 8 a ++ leBytes 8 b ++ leBytes 8 c), rfl, ?_⟩
    unfold packedShape
    rw [unpack_getHeader _ _ _ _ _ _ _ _ htl htb hsrc hseq (by decide)
      (by simp [leBytes_length])]
    rw [decodePayload_StateInfo a b c h1 h2 h3]
    rfl
  | StateLocation location label u =>
    obtain ⟨h1, _, h3, _, h5⟩ := pw
    refine ⟨packedShape h 50 (location ++ labelPad32 label ++ leBytes 8 u), rfl, ?_⟩
    unfold packedShape
    rw [unpack_getHeader _ _ _ _ _ _ _ _ htl htb hsrc hseq (by decide)
      (by simp [labelPad32, leBytes_length, h1, h3])]
    rw [decodePayload_StateLocation location label u h1 h3 h5]
    rfl
  | StateGroup group label u =>
    obtain ⟨h1, _, h3, _, h5⟩ := pw
    refine ⟨packedShape h 53 (group ++ labelPad32 label ++ leBytes 8 u), rfl, ?_⟩
    unfold packedShape
    rw [unpack_getHeader _ _ _ _ _ _ _ _ htl htb hsrc hseq (by decide)
      (by simp [labelPad32, leBytes_length, h1, h3])]
    rw [decodePayload_StateGroup group label u h1 h3 h5]
    rfl
  | EchoRequest ba =>
    obtain ⟨h1, _⟩ := pw
    refine ⟨packedShape h 58 (echoRequestBytes ba), rfl, ?_⟩
    unfold packedShape
    rw [unpack_getHeader _ _ _ _ _ _ _ _ htl htb hsrc hseq (by decide)
      (by simp [echoRequestBytes, h1])]
    rw [decodePayload_EchoRequest ba h1]
    rfl
  | EchoResponse ba =>
    obtain ⟨_, h2⟩ := pw
    refine ⟨packedShape h 59 ba, rfl, ?_⟩
    unfold packedShape
    rw [unpack_getHeader _ _ _ _ _ _ _ _ htl htb hsrc hseq (by decide) h2]
    rw [decodePayload_EchoResponse ba]
    rfl
  | LightSetPower pwr d =>
    obtain ⟨h1, h2⟩ := pw
    refine ⟨packedShape h 117 (leBytes 2 pwr ++ leBytes 4 d), rfl, ?_⟩
    unfold packedShape
    rw [unpack_getHeader _ _ _ _ _ _ _ _ htl htb hsrc hseq (by decide)
      (by simp [leBytes_length])]
    rw [decodePayload_LightSetPower pwr d h1 h2]
    rfl
  | LightStatePower pwr =>
    refine ⟨packedShape h 118 (leBytes 2 pwr), rfl, ?_⟩
    unfold packedShape
    rw [unpack_getHeader _ _ _ _ _ _ _ _ htl htb hsrc hseq (by decide)
      (by simp [leBytes_length])]
    rw [decodePayload_LightStatePower pwr pw]
    rfl
  | LightStateInfrared b =>
    refine ⟨packedShape h 121 (leBytes 2 b), rfl, ?_⟩
    unfold packedShape
    rw [unpack_getHeader _ _ _ _ _ _ _ _ htl htb hsrc hseq (by decide)
      (by simp [leBytes_length])]
    rw [decodePayload_LightStateInfrared b pw]
    rfl
  | LightSetInfrared b =>
    refine ⟨packedShape h 122 (leBytes 2 b), rfl, ?_⟩
    unfold packedShape
    rw [unpack_getHeader _ _ _ _ _ _ _ _ htl htb hsrc hseq (by decide)
      (by simp [leBytes_length])]
    rw [decodePayload_LightSetInfrared b pw]
    rfl
  | SetHevCycle e d =>
    refine ⟨packedShape h 143 (leBytes 1 (if e then 1 else 0) ++ leBytes 4 d), rfl, ?_⟩
    unfold packedShape
    rw [unpack_getHeader _ _ _ _ _ _ _ _ htl htb hsrc hseq (by decide)
      (by simp [leBytes_length])]
    rw [decodePayload_SetHevCycle e d pw]
    rfl
  | StateHevCycle d r lp =>
    obtain ⟨h1, h2⟩ := pw
    refine ⟨packedShape h 144
      (leBytes 4 d ++ leBytes 4 r ++ leBytes 1 (if lp then 1 else 0)), rfl, ?_⟩
    unfold packedShape
    rw [unpack_getHeader _ _ _ _ _ _ _ _ htl htb hsrc hseq (by decide)
      (by simp [leBytes_length])]
    rw [decodePayload_StateHevCycle d r lp h1 h2]
    rfl
  | SetHevCycleConfiguration i d =>
    refine ⟨packedShape h 146 (leBytes 1 (if i then 1 else 0) ++ leBytes 4 d), rfl, ?_⟩
    unfold packedShape
    rw [unpack_getHeader _ _ _ _ _ _ _ _ htl htb hsrc hseq (by decide)
      (by simp [leBytes_length])]
    rw [decodePayload_SetHevCycleConfiguration i d pw]
    rfl
  | StateHevCycleConfiguration i d =>
    refine ⟨packedShape h 147 (leBytes 1 (if i then 1 else 0) ++ leBytes 4 d), rfl, ?_⟩
    unfold packedShape
    rw [unpack_getHeader _ _ _ _ _ _ _ _ htl htb hsrc hseq (by decide)
      (by simp [leBytes_length])]
    rw [decodePayload_StateHevCycleConfiguration i d pw]
    rfl
  | StateLastHevCycleResult r =>
    refine ⟨packedShape h 149 (leBytes 1 r), rfl, ?_⟩
    unfold packedShape
    rw [unpack_getHeader _ _ _ _ _ _ _ _ htl htb hsrc hseq (by decide)
      (by simp [leBytes_length])]
    rw [decodePayload_StateLastHevCycleResult r pw]
    rfl
  | MultiZoneStateZone c i col =>
    obtain ⟨h1, h2, h3⟩ := pw
    refine ⟨packedShape h 503 (leBytes 1 c ++ leBytes 1 i ++ packHSBK col), rfl, ?_⟩
    unfold packedShape
    rw [unpack_getHeader _ _ _ _ _ _ _ _ htl htb hsrc hseq (by decide)
      (by simp [leBytes_length, packHSBK_length])]
    rw [decodePayload_MultiZoneStateZone c i col h1 h2 h3]
    rfl
  | MultiZoneStateMultiZone c i colors =>
    obtain ⟨h1, h2, h3, h4⟩ := pw
    refine ⟨packedShape h 506
      (leBytes 1 c ++ leBytes 1 i ++ (colors.map packHSBK).flatten), rfl, ?_⟩
    unfold packedShape
    rw [unpack_getHeader _ _ _ _ _ _ _ _ htl htb hsrc hseq (by decide)
      (by simp only [List.length_append, leBytes_length,
            flatten_map_packHSBK_length, h3]; omega)]
    rw [decodePayload_MultiZoneStateMultiZone c i colors h1 h2 h3 h4]
    rfl
  | MultiZoneStateExtendedColorZones zc zi cc colors =>
    obtain ⟨h1, h2, h3, h4, h5⟩ := pw
    refine ⟨packedShape h 512
      (leBytes 2 zc ++ leBytes 2 zi ++ leBytes 1 cc ++ (colors.map packHSBK).flatten),
      rfl, ?_⟩
    unfold packedShape
    rw [unpack_getHeader _ _ _ _ _ _ _ _ htl htb hsrc hseq (by decide)
      (by simp only [List.length_append, leBytes_length,
            flatten_map_packHSBK_length, h4]; omega)]
    rw [decodePayload_MultiZoneStateExtendedColorZones zc zi cc colors h1 h2 h3 h4 h5]
    rfl

/-- C1 witness: the amended round-trip theorem applied at a concrete message
with all hypotheses discharged by computation. -/
theorem c1_roundtrip_witness :
    ∃ bs, generatePackedMessage
        { target_addr := [18, 52, 86, 120, 154, 188], source_id := 1234567,
          seq_num := 7, ack_requested := true, response_requested := false }
        (.StatePower 65535) = some bs ∧
      unpackLifxMessage bs = some
        ({ target_addr := [18, 52, 86, 120, 154, 188], source_id := 1234567,
           seq_num := 7, ack_requested := true, response_requested := false },
         .StatePower 65535) :=
  c1_roundtrip
    { target_addr := [18, 52, 86, 120, 154, 188], source_id := 1234567,
      seq_num := 7, ack_requested := true, response_requested := false }
    (.StatePower 65535) (by unfold Header.wf; decide) (by unfold Payload.wf; decide)
    (by decide)

/-- C1 counterexample: MultiZoneSetColorZones is a registered kind with a
client-side serializer, its fields below are within their declared ranges,
and yet unpacking its packed bytes yields a bare Message (Unknown 501) rather
than a message of the same kind: unpack_lifx_message has no branch for
message type 501, so kind and payload fields are lost. -/
theorem c1_counterexample :
    (generatePackedMessage
        { target_addr := [170, 187, 204, 221, 238, 255], source_id := 305419896,
          seq_num := 1, ack_requested := true, response_requested := false }
        (.MultiZoneSetColorZones 0 7 ⟨1, 2, 3, 4⟩ 0 1)).map unpackLifxMessage
      = some (some
        ({ target_addr := [170, 187, 204, 221, 238, 255], source_id := 305419896,
           seq_num := 1, ack_requested := true, response_requested := false },
         .Unknown 501)) ∧
    Payload.Unknown 501 ≠ .MultiZoneSetColorZones 0 7 ⟨1, 2, 3, 4⟩ 0 1 :=
  ⟨by rfl, fun heq => Payload.noConfusion heq⟩

/-! ## C4: header invariants of every emitted message -/

theorem echoRequestBytes_length (ba : List Nat) : (echoRequestBytes ba).length = 64 := by
  unfold echoRequestBytes
  split
  · simp; omega
  · split
    · simp; omega
    · omega

/-- Every serialized payload of an in-range message fits the 16-bit size
field. -/
theorem encodePayload_size (p : Payload) (pl : List Nat) (pw : p.wf)
    (he : encodePayload p = some pl) : 36 + pl.length < 65536 := by
  cases p <;>
    first
    | exact Option.noConfusion he
    | (simp only [encodePayload, Option.some.injEq] at he
       subst he
       try simp only [Payload.wf] at pw
       try simp only [List.length_append, List.length_replicate, List.length_nil,
         leBytes_length, labelPad32, echoRequestBytes_length, packHSBK_length,
         flatten_map_packHSBK_length]
       omega)

theorem frameFlags_origin (tg : Nat) (h : tg = 0 ∨ tg = 1) :
    (frameFlags tg >>> 14) &&& 3 = 0 := by
  rcases h with h | h <;> subst h <;> decide

theorem frameFlags_addressable (tg : Nat) (h : tg = 0 ∨ tg = 1) :
    (frameFlags tg >>> 12) &&& 1 = 1 := by
  rcases h with h | h <;> subst h <;> decide

theorem frameFlags_protocol (tg : Nat) (h : tg = 0 ∨ tg = 1) :
    frameFlags tg &&& 4095 = 1024 := by
  rcases h with h | h <;> subst h <;> decide

theorem frameFlags_tagged (tg : Nat) (h : tg = 0 ∨ tg = 1) :
    (frameFlags tg >>> 13) &&& 1 = tg := by
  rcases h with h | h <;> subst h <;> decide

theorem respFlagsByte_reserved (ack resp : Bool) :
    respFlagsByte ack resp >>> 2 = 0 := by
  cases ack <;> cases resp <;> decide

/-- C4.  For every message the codec emits, the packed buffer's size field
equals the total length in bytes of the buffer (36-byte header plus
payload), its tagged bit is 1 if and only if the target MAC bytes in the
packet are the all-zero broadcast MAC, addressable is 1, protocol is 1024,
origin is 0, and all reserved fields (bytes 14 to 21, the upper six bits of
the response-flags byte, bytes 24 to 31 and bytes 34 to 35) are zero. -/
theorem c4_header_invariants (h : Header) (p : Payload) (bs : List Nat)
    (hw : h.wf) (pw : p.wf) (henc : generatePackedMessage h p = some bs) :
    leVal (pySlice bs 0 2) = bs.length ∧
    (leVal (pySlice bs 2 4) >>> 14) &&& 3 = 0 ∧
    (leVal (pySlice bs 2 4) >>> 12) &&& 1 = 1 ∧
    leVal (pySlice bs 2 4) &&& 4095 = 1024 ∧
    (((leVal (pySlice bs 2 4) >>> 13) &&& 1 = 1) ↔
      pySlice bs 8 14 = List.replicate 6 0) ∧
    pySlice bs 14 22 = List.replicate 8 0 ∧
    leVal (pySlice bs 22 23) >>> 2 = 0 ∧
    pySlice bs 24 32 = List.replicate 8 0 ∧
    pySlice bs 34 36 = List.replicate 2 0 := by
  obtain ⟨htl, htb, hsrc, hseq⟩ := hw
  obtain ⟨pl, hpl, hbs⟩ := Option.map_eq_some'.mp henc
  have hsz := encodePayload_size p pl pw hpl
  set target := targetAddrOf h p with htargdef
  have htl' : target.length = 6 := by
    rw [htargdef]; unfold targetAddrOf; cases p <;> simp [BROADCAST_MAC, htl]
  have htb' : ∀ b ∈ target, b < 256 := by
    rw [htargdef]; unfold targetAddrOf
    cases p <;> first
      | exact htb
      | (intro b hb; simp [BROADCAST_MAC] at hb; omega)
  set tg : Nat := if target = BROADCAST_MAC then 1 else 0 with htgdef
  have htg01 : tg = 0 ∨ tg = 1 := by
    rw [htgdef]; split <;> simp
  have hmac : leBytes 8 (convertMACToInt target) = target ++ leBytes 2 0 := by
    have hp := leBytes_leVal_pad target 2 htb'
    rw [htl'] at hp
    exact hp
  have hbs' : bs =
      leBytes 2 (36 + pl.length) ++
      (leBytes 2 (frameFlags tg) ++
      (leBytes 4 h.source_id ++
      (target ++
      (leBytes 2 0 ++
      (List.replicate 6 0 ++
      (leBytes 1 (respFlagsByte h.ack_requested h.response_requested) ++
      (leBytes 1 h.seq_num ++
      (leBytes 8 0 ++
      (leBytes 2 (MSG_IDS p) ++ (leBytes 2 0 ++ pl)))))))))) := by
    rw [← hbs]
    simp only [generatePackedMessage, getHeader, getFrame, getFrameAddr,
      getProtocolHeader, HEADER_SIZE_BYTES, hmac, ← htargdef, ← htgdef,
      List.append_assoc]
  have hlen : bs.length = 36 + pl.length := by
    rw [hbs']
    simp [leBytes_length, htl']
    omega
  have s1 : pySlice bs 0 2 = leBytes 2 (36 + pl.length) := by
    rw [hbs']; exact pySlice_front _ _ 2 (leBytes_length 2 _)
  have s2 : pySlice bs 2 4 = leBytes 2 (frameFlags tg) := by
    rw [hbs']
    simp only [pySlice_append_skip, pySlice_front, leBytes_length,
      Nat.reduceSub, Nat.reduceLeDiff]
  have s3 : pySlice bs 8 14 = target := by
    rw [hbs']
    simp only [pySlice_append_skip, leBytes_length, Nat.reduceSub, Nat.reduceLeDiff]
    exact pySlice_front _ _ 6 htl'
  have s4 : pySlice bs 14 22 = leBytes 2 0 ++ List.replicate 6 0 := by
    rw [hbs']
    simp only [pySlice_append_skip, leBytes_length, htl', Nat.reduceSub,
      Nat.reduceLeDiff]
    rw [show leBytes 2 0 ++ (List.replicate 6 0 ++
        (leBytes 1 (respFlagsByte h.ack_requested h.response_requested) ++
        (leBytes 1 h.seq_num ++
        (leBytes 8 0 ++ (leBytes 2 (MSG_IDS p) ++ (leBytes 2 0 ++ pl)))))) =
      (leBytes 2 0 ++ List.replicate 6 0) ++
        (leBytes 1 (respFlagsByte h.ack_requested h.response_requested) ++
        (leBytes 1 h.seq_num ++
        (leBytes 8 0 ++ (leBytes 2 (MSG_IDS p) ++ (leBytes 2 0 ++ pl)))))
      from by simp]
    exact pySlice_front _ _ 8 (by simp [leBytes_length])
  have s5 : pySlice bs 22 23 =
      leBytes 1 (respFlagsByte h.ack_requested h.response_requested) := by
    rw [hbs']
    simp only [pySlice_append_skip, leBytes_length, htl', List.length_replicate,
      Nat.reduceSub, Nat.reduceLeDiff]
    exact pySlice_front _ _ 1 (leBytes_length 1 _)
  have s6 : pySlice bs 24 32 = leBytes 8 0 := by
    rw [hbs']
    simp only [pySlice_append_skip, leBytes_length, htl', List.length_replicate,
      Nat.reduceSub, Nat.reduceLeDiff]
    exact pySlice_front _ _ 8 (leBytes_length 8 _)
  have s7 : pySlice bs 34 36 = leBytes 2 0 := by
    rw [hbs']
    simp only [pySlice_append_skip, leBytes_length, htl', List.length_replicate,
      Nat.reduceSub, Nat.reduceLeDiff]
    exact pySlice_front _ _ 2 (leBytes_length 2 _)
  refine ⟨?_, ?_, ?_, ?_, ?_, ?_, ?_, ?_, ?_⟩
  · rw [s1, hlen, leVal_leBytes 2 _ (by omega)]
  · rw [s2, leVal_leBytes 2 _ (frameFlags_lt tg)]
    exact frameFlags_origin tg htg01
  · rw [s2, leVal_leBytes 2 _ (frameFlags_lt tg)]
    exact frameFlags_addressable tg htg01
  · rw [s2, leVal_leBytes 2 _ (frameFlags_lt tg)]
    exact frameFlags_protocol tg htg01
  · rw [s2, s3, leVal_leBytes 2 _ (frameFlags_lt tg), frameFlags_tagged tg htg01]
    rw [show List.replicate 6 0 = BROADCAST_MAC from rfl, htgdef]
    by_cases hbc : target = BROADCAST_MAC
    · simp [hbc]
    · simp [hbc]
  · rw [s4, leBytes_zero]
    rfl
  · rw [s5, leVal_leBytes 1 _ (respFlagsByte_lt h.ack_requested h.response_requested)]
    exact respFlagsByte_reserved h.ack_requested h.response_requested
  · rw [s6, leBytes_zero]
  · rw [s7, leBytes_zero]

/-- C4 witness: the invariants evaluated on a concrete packed message. -/
theorem c4_header_invariants_witness :
    leVal (pySlice [38, 0, 0, 20, 135, 214, 18, 0, 18, 52, 86, 120, 154, 188,
        0, 0, 0, 0, 0, 0, 0, 0, 1, 7, 0, 0, 0, 0, 0, 0, 0, 0, 21, 0, 0, 0,
        255, 255] 0 2) =
      [38, 0, 0, 20, 135, 214, 18, 0, 18, 52, 86, 120, 154, 188,
        0, 0, 0, 0, 0, 0, 0, 0, 1, 7, 0, 0, 0, 0, 0, 0, 0, 0, 21, 0, 0, 0,
        255, 255].length ∧
    (leVal (pySlice [38, 0, 0, 20, 135, 214, 18, 0, 18, 52, 86, 120, 154, 188,
        0, 0, 0, 0, 0, 0, 0, 0, 1, 7, 0, 0, 0, 0, 0, 0, 0, 0, 21, 0, 0, 0,
        255, 255] 2 4) >>> 14) &&& 3 = 0 ∧
    (leVal (pySlice [38, 0, 0, 20, 135, 214, 18, 0, 18, 52, 86, 120, 154, 188,
        0, 0, 0, 0, 0, 0, 0, 0, 1, 7, 0, 0, 0, 0, 0, 0, 0, 0, 21, 0, 0, 0,
        255, 255] 2 4) >>> 12) &&& 1 = 1 ∧
    leVal (pySlice [38, 0, 0, 20, 135, 214, 18, 0, 18, 52, 86, 120, 154, 188,
        0, 0, 0, 0, 0, 0, 0, 0, 1, 7, 0, 0, 0, 0, 0, 0, 0, 0, 21, 0, 0, 0,
        255, 255] 2 4) &&& 4095 = 1024 ∧
    (((leVal (pySlice [38, 0, 0, 20, 135, 214, 18, 0, 18, 52, 86, 120, 154, 188,
        0, 0, 0, 0, 0, 0, 0, 0, 1, 7, 0, 0, 0, 0, 0, 0, 0, 0, 21, 0, 0, 0,
        255, 255] 2 4) >>> 13) &&& 1 = 1) ↔
      pySlice [38, 0, 0, 20, 135, 214, 18, 0, 18, 52, 86, 120, 154, 188,
        0, 0, 0, 0, 0, 0, 0, 0, 1, 7, 0, 0, 0, 0, 0, 0, 0, 0, 21, 0, 0, 0,
        255, 255] 8 14 = List.replicate 6 0) ∧
    pySlice [38, 0, 0, 20, 135, 214, 18, 0, 18, 52, 86, 120, 154, 188,
        0, 0, 0, 0, 0, 0, 0, 0, 1, 7, 0, 0, 0, 0, 0, 0, 0, 0, 21, 0, 0, 0,
        255, 255] 14 22 = List.replicate 8 0 ∧
    leVal (pySlice [38, 0, 0, 20, 135, 214, 18, 0, 18, 52, 86, 120, 154, 188,
        0, 0, 0, 0, 0, 0, 0, 0, 1, 7, 0, 0, 0, 0, 0, 0, 0, 0, 21, 0, 0, 0,
        255, 255] 22 23) >>> 2 = 0 ∧
    pySlice [38, 0, 0, 20, 135, 214, 18, 0, 18, 52, 86, 120, 154, 188,
        0, 0, 0, 0, 0, 0, 0, 0, 1, 7, 0, 0, 0, 0, 0, 0, 0, 0, 21, 0, 0, 0,
        255, 255] 24 32 = List.replicate 8 0 ∧
    pySlice [38, 0, 0, 20, 135, 214, 18, 0, 18, 52, 86, 120, 154, 188,
        0, 0, 0, 0, 0, 0, 0, 0, 1, 7, 0, 0, 0, 0, 0, 0, 0, 0, 21, 0, 0, 0,
        255, 255] 34 36 = List.replicate 2 0 :=
  c4_header_invariants
    { target_addr := [18, 52, 86, 120, 154, 188], source_id := 1234567,
      seq_num := 7, ack_requested := false, response_requested := true }
    (.SetPower 65535) _
    (by unfold Header.wf; decide) (by unfold Payload.wf; decide) rfl

/-! ## C3: the sequence counter (Device.seq_next, aiolifx.py) -/

/-- Device.seq_next: the endpoint stores seq = (seq + 1) mod 128 and returns
the stored value.  Modelled as (returned value, new stored counter). -/
def seqNext (seq : Nat) : Nat × Nat :=
  ((seq + 1) % 128, (seq + 1) % 128)

/-- The list of values returned by n successive seq_next calls starting from
stored counter seq. -/
def seqNextCalls : Nat → Nat → List Nat
  | 0, _ => []
  | n + 1, seq => (seqNext seq).1 :: seqNextCalls n (seqNext seq).2

set_option maxRecDepth 8192 in
/-- C3.  seq_next returns (seq + 1) mod 128 and stores that value as the new
counter; starting from 0, 129 successive calls return 1, 2, ..., 127, 0, 1;
and every returned value is strictly less than 128. -/
theorem c3_seq_next :
    (∀ seq, (seqNext seq).1 = (seq + 1) % 128 ∧ (seqNext seq).2 = (seq + 1) % 128) ∧
    seqNextCalls 129 0 = ((List.range 127).map (fun k => k + 1)) ++ [0, 1] ∧
    (∀ seq, (seqNext seq).1 < 128) ∧
    (∀ x ∈ seqNextCalls 129 0, x < 128) :=
  ⟨fun _ => ⟨rfl, rfl⟩, by decide, fun seq => Nat.mod_lt _ (by decide), by decide⟩

/-! ## C5: firmware version strings
(resp_set_hostfirmware / resp_set_wififirmware, aiolifx.py) -/

/-- resp_set_hostfirmware caches
str(resp.version >> 16) + "." + str(resp.version & 0xFFFF). -/
def hostFirmwareVersionString (version : Nat) : String :=
  toString (version >>> 16) ++ "." ++ toString (version &&& 0xFFFF)

/-- resp_set_wififirmware caches
float(str(str(resp.version >> 16) + "." + str(resp.version & 0xFF))); this
definition is the string handed to float (note the 0xFF mask: only the low
8 bits).  The float wrapper itself is not modelled; the claims below are
about this string. -/
def wifiFirmwareVersionString (version : Nat) : String :=
  toString (version >>> 16) ++ "." ++ toString (version &&& 0xFF)

/-- Modelled from the spec: the string formed as major.minor where major is
the high 16 bits of the version and minor is the low 16 bits. -/
def specMajorMinorString (version : Nat) : String :=
  toString (version / 2 ^ 16) ++ "." ++ toString (version % 2 ^ 16)

/-- The same shape with only the low 8 bits as the minor component, which is
what the wifi-firmware handler actually computes. -/
def specMajorLow8String (version : Nat) : String :=
  toString (version / 2 ^ 16) ++ "." ++ toString (version % 2 ^ 8)

/-- C5 counterexample: for version 65792 = 0x00010100 (major 1, minor 256)
the claimed cached string is "1.256", but the wifi-firmware handler builds
"1.0" (and then caches the float 1.0, not a string at all). -/
theorem c5_counterexample :
    wifiFirmwareVersionString 65792 = "1.0" ∧
    specMajorMinorString 65792 = "1.256" ∧
    wifiFirmwareVersionString 65792 ≠ specMajorMinorString 65792 :=
  ⟨by decide, by decide, by decide⟩

/-- C5 (amended).  For every StateHostFirmware reply carrying a 32-bit
version, the cached host firmware version is the string major.minor with
major the high 16 bits and minor the low 16 bits; for every StateWifiFirmware
reply, the cached value is instead the float parse of the string major.minor8
where minor8 is only the low 8 bits of the version. -/
theorem c5_firmware_version_amended (version : Nat) :
    hostFirmwareVersionString version = specMajorMinorString version ∧
    wifiFirmwareVersionString version = specMajorLow8String version := by
  have h16 : version >>> 16 = version / 2 ^ 16 := Nat.shiftRight_eq_div_pow version 16
  have hm16 : version &&& 0xFFFF = version % 2 ^ 16 := by
    have h := Nat.and_pow_two_sub_one_eq_mod version 16
    simpa using h
  have hm8 : version &&& 0xFF = version % 2 ^ 8 := by
    have h := Nat.and_pow_two_sub_one_eq_mod version 8
    simpa using h
  constructor
  · unfold hostFirmwareVersionString specMajorMinorString
    rw [h16, hm16]
  · unfold wifiFirmwareVersionString specMajorLow8String
    rw [h16, hm8]

/-! ## C6: switch backlight Kelvin conversion (get_kelvin, main module) -/

/-- Python's round on an exact rational num/den with positive denominator:
round half to even. -/
def roundHalfToEven (num den : Nat) : Nat :=
  if 2 * (num % den) < den then num / den
  else if den < 2 * (num % den) then num / den + 1
  else if (num / den) % 2 = 0 then num / den else num / den + 1

/-- get_kelvin of the command-line module: byte values at or below 10495
clamp to 9000 K, values at or above 56575 clamp to 1500 K, and values in
between map through round(9000 - ((byte - 10495) / 46080) * 7500).  The
source evaluates the expression in floating point; this model evaluates the
same rational number exactly, as
round((9000 * 46080 - (byte - 10495) * 7500) / 46080). -/
def getKelvin (byte_value : Nat) : Nat :=
  if byte_value ≤ 10495 then 9000
  else if byte_value < 56575 then
    roundHalfToEven (9000 * 46080 - (byte_value - 10495) * 7500) 46080
  else 1500

/-- C6 counterexample: the claimed linear midpoint value is wrong.  At byte
33535 the linear interpolation gives 9000 - 0.5 * 7500 = 5250 K, not the
4250 K stated by the claim. -/
theorem c6_counterexample : getKelvin 33535 = 5250 ∧ getKelvin 33535 ≠ 4250 :=
  ⟨by decide, by decide⟩

/-- C6 (amended).  The switch-backlight Kelvin conversion maps byte values
in [10495, 56575] linearly and monotonically decreasing onto Kelvin
[9000, 1500], clamping values at or below 10495 to 9000 K and values at or
above 56575 to 1500 K; in particular byte 10495 maps to 9000 K, the midpoint
byte 33535 maps to 5250 K, byte 56575 maps to 1500 K, and byte 60000 maps to
1500 K. -/
theorem roundHalfToEven_bounds (num : Nat) :
    num / 46080 ≤ roundHalfToEven num 46080 ∧
    roundHalfToEven num 46080 ≤ num / 46080 + 1 := by
  unfold roundHalfToEven
  split_ifs <;> omega

theorem roundHalfToEven_mono46080 (n1 n2 : Nat) (h : n1 ≤ n2) :
    roundHalfToEven n1 46080 ≤ roundHalfToEven n2 46080 := by
  unfold roundHalfToEven
  split_ifs <;> omega

theorem c6_get_kelvin_amended :
    getKelvin 10495 = 9000 ∧ getKelvin 33535 = 5250 ∧
    getKelvin 56575 = 1500 ∧ getKelvin 60000 = 1500 ∧
    (∀ b, b ≤ 10495 → getKelvin b = 9000) ∧
    (∀ b, 56575 ≤ b → getKelvin b = 1500) ∧
    (∀ b, 1500 ≤ getKelvin b ∧ getKelvin b ≤ 9000) ∧
    (∀ b1 b2, b1 ≤ b2 → getKelvin b2 ≤ getKelvin b1) := by
  refine ⟨by decide, by decide, by decide, by decide, ?_, ?_, ?_, ?_⟩
  · intro b hb
    unfold getKelvin
    rw [if_pos hb]
  · intro b hb
    unfold getKelvin
    rw [if_neg (by omega), if_neg (by omega)]
  · intro b
    unfold getKelvin
    split_ifs with h1 h2
    · omega
    · have hb := roundHalfToEven_bounds (9000 * 46080 - (b - 10495) * 7500)
      omega
    · omega
  · intro b1 b2 h
    unfold getKelvin
    split_ifs <;>
      first
      | omega
      | exact roundHalfToEven_mono46080 _ _ (by omega)
      | (have hb1 := roundHalfToEven_bounds (9000 * 46080 - (b1 - 10495) * 7500)
         have hb2 := roundHalfToEven_bounds (9000 * 46080 - (b2 - 10495) * 7500)
         omega)

/-- C6 witness: the amended theorem applied at concrete bytes, with its
hypotheses discharged by computation. -/
theorem c6_get_kelvin_amended_witness :
    getKelvin 60000 ≤ getKelvin 20000 ∧ getKelvin 9000 = 9000 :=
  ⟨c6_get_kelvin_amended.2.2.2.2.2.2.2 20000 60000 (by decide),
   c6_get_kelvin_amended.2.2.2.2.1 9000 (by decide)⟩

/-! ## C7: EUI-64 link-local synthesis (mac_to_ipv6_linklocal, aiolifx.py) -/

/-- One hex digit of int(s, 16); other characters raise in the source and
never occur in the inputs considered here. -/
def hexDigitVal (c : Char) : Nat :=
  if '0' ≤ c ∧ c ≤ '9' then c.toNat - '0'.toNat
  else if 'a' ≤ c ∧ c ≤ 'f' then 10 + (c.toNat - 'a'.toNat)
  else if 'A' ≤ c ∧ c ≤ 'F' then 10 + (c.toNat - 'A'.toNat)
  else 0

/-- mac.translate(delete " .:-") followed by int(..., 16). -/
def macValue (mac : String) : Nat :=
  (mac.data.filter (fun c => !([' ', '.', ':', '-'].contains c))).foldl
    (fun acc c => 16 * acc + hexDigitVal c) 0

/-- Python "{:0Nx}".format(v): lowercase hex, zero-padded to the width. -/
def formatHex (width v : Nat) : String :=
  let s := String.mk (Nat.toDigits 16 v)
  String.mk (List.replicate (width - s.length) '0') ++ s

/-- mac_to_ipv6_linklocal of aiolifx.py: strip separators, parse the MAC as
hex, XOR the universal/local bit into the top 16-bit group, and format
prefix + ":{:04x}:{:02x}ff:fe{:02x}:{:04x}". -/
def macToIpv6Linklocal (mac : String) (pfx : String) : String :=
  let mac_value := macValue mac
  let high2 := ((mac_value >>> 32) &&& 0xFFFF) ^^^ 0x0200
  let high1 := (mac_value >>> 24) &&& 0xFF
  let low1 := (mac_value >>> 16) &&& 0xFF
  let low2 := mac_value &&& 0xFFFF
  pfx ++ ":" ++ formatHex 4 high2 ++ ":" ++ formatHex 2 high1 ++ "ff:fe" ++
    formatHex 2 low1 ++ ":" ++ formatHex 4 low2

/-- C7.  The claim (and the function's own docstring, which promises a valid
IPv6 address built from the RFC 4291 link-local prefix) expect
mac_to_ipv6_linklocal("12:34:56:78:9a:bc", "fe80::") to be
"fe80::1034:56ff:fe78:9abc".  The U/L bit flip (0x12 to 0x10) and the
ff:fe insertion are performed as claimed, but the format string prepends
one more colon after the prefix, producing the invalid address
"fe80:::1034:56ff:fe78:9abc". -/
theorem c7_mac_to_ipv6_extra_colon :
    macToIpv6Linklocal "12:34:56:78:9a:bc" "fe80::" = "fe80:::1034:56ff:fe78:9abc" ∧
    "fe80:::1034:56ff:fe78:9abc" ≠ "fe80::1034:56ff:fe78:9abc" :=
  ⟨by decide, by decide⟩

/-! ## C9: label truncation and padding (Device.set_label, aiolifx.py, and
SetLabel.get_payload, msgtypes.py) -/

/-- Device.set_label: a value longer than 32 is silently truncated to its
first 32 bytes before the SetLabel request is built. -/
def setLabelValue (value : List Nat) : List Nat :=
  if value.length > 32 then value.take 32 else value

/-- The SetLabel payload that Device.set_label emits: boundary truncation,
then SetLabel.get_payload's zero padding to 32 bytes. -/
def setLabelPayload (value : List Nat) : List Nat :=
  labelPad32 (setLabelValue value)

/-- C9.  An over-long label passed to set_label is silently truncated to 32
bytes, and the encoded SetLabel payload is always exactly 32 bytes: a label
of 32 or more bytes produces a payload holding exactly its first 32 bytes
with no NUL padding, and a shorter label is zero-padded to 32 bytes. -/
theorem c9_set_label_payload (value : List Nat) :
    (setLabelPayload value).length = 32 ∧
    (32 ≤ value.length → setLabelPayload value = value.take 32) ∧
    (value.length ≤ 32 →
      setLabelPayload value = value ++ List.replicate (32 - value.length) 0) := by
  unfold setLabelPayload setLabelValue labelPad32
  refine ⟨?_, ?_, ?_⟩
  · (split <;> simp); omega
  · intro h
    split
    · rw [List.length_take, Nat.min_eq_left (by omega), Nat.sub_self,
        List.replicate_zero, List.append_nil]
    · have hv : value.length = 32 := by omega
      rw [hv, Nat.sub_self, List.replicate_zero, List.append_nil, ← hv,
        List.take_length]
  · intro h
    rw [if_neg (by omega)]

/-- C9 witness: the 34-byte label "hello world!!!!!!!!!!!!!!!!!!!!!!"
becomes a 32-byte payload holding exactly its first 32 bytes. -/
theorem c9_set_label_payload_witness :
    (setLabelPayload [104, 101, 108, 108, 111, 32, 119, 111, 114, 108, 100,
        33, 33, 33, 33, 33, 33, 33, 33, 33, 33, 33, 33, 33, 33, 33, 33, 33,
        33, 33, 33, 33, 33, 33]).length = 32 ∧
    setLabelPayload [104, 101, 108, 108, 111, 32, 119, 111, 114, 108, 100,
        33, 33, 33, 33, 33, 33, 33, 33, 33, 33, 33, 33, 33, 33, 33, 33, 33,
        33, 33, 33, 33, 33, 33] =
      List.take 32 [104, 101, 108, 108, 111, 32, 119, 111, 114, 108, 100,
        33, 33, 33, 33, 33, 33, 33, 33, 33, 33, 33, 33, 33, 33, 33, 33, 33,
        33, 33, 33, 33, 33, 33] :=
  ⟨(c9_set_label_payload _).1, (c9_set_label_payload _).2.1 (by decide)⟩

/-! ## C8: multizone zone cache
(Light.resp_set_multizonemultizone, aiolifx.py) -/

/-- The loop of resp_set_multizonemultizone's resp branch: for i in
range(index, min(index + 8, count)), write colors[i - index] into slot i of
the zone cache, appending (with duplicated filler, as the source does) when
i is beyond the end.  The bare except around the loop swallows an
IndexError from colors[i - index], aborting the loop and keeping the cache
built so far, modelled by the none case of the indexed read. -/
def mzIter (colors : List HSBK) (index0 : Nat) :
    List (Option HSBK) → Nat → Nat → List (Option HSBK)
  | cz, _, 0 => cz
  | cz, i, fuel + 1 =>
    match colors.get? (i - index0) with
    | none => cz
    | some c =>
      let cz' := if cz.length ≤ i
        then cz ++ List.replicate (i - cz.length) (some c) ++ [some c]
        else cz.set i (some c)
      mzIter colors index0 cz' (i + 1) fuel

/-- The resp branch of Light.resp_set_multizonemultizone (the path taken
when the handler is dispatched from datagram_received with args = None): if
the zone cache is empty, initialize it to count null slots, then fill slots
index .. min(index + 8, count) - 1 with the reply's colors. -/
def respSetMultizonemultizone (color_zones : Option (List (Option HSBK)))
    (count index : Nat) (colors : List HSBK) : List (Option HSBK) :=
  let cz := match color_zones with
    | none => List.replicate count none
    | some cz => cz
  mzIter colors index cz index (min (index + 8) count - index)

set_option maxHeartbeats 1600000 in
/-- C8.  For a multizone light with an empty zone cache, a StateMultiZone
reply with count 16, index 0 and 8 colors followed by one with count 16,
index 8 and 8 colors leaves the cached color_zones list with length 16, the
first reply's colors at indices 0-7, the second reply's colors at indices
8-15, and no slot left null. -/
theorem c8_multizone_partial_read
    (c0 c1 c2 c3 c4 c5 c6 c7 d0 d1 d2 d3 d4 d5 d6 d7 : HSBK) :
    respSetMultizonemultizone
        (some (respSetMultizonemultizone none 16 0 [c0, c1, c2, c3, c4, c5, c6, c7]))
        16 8 [d0, d1, d2, d3, d4, d5, d6, d7]
      = [some c0, some c1, some c2, some c3, some c4, some c5, some c6, some c7,
         some d0, some d1, some d2, some d3, some d4, some d5, some d6, some d7] ∧
    (respSetMultizonemultizone
        (some (respSetMultizonemultizone none 16 0 [c0, c1, c2, c3, c4, c5, c6, c7]))
        16 8 [d0, d1, d2, d3, d4, d5, d6, d7]).length = 16 ∧
    (respSetMultizonemultizone
        (some (respSetMultizonemultizone none 16 0 [c0, c1, c2, c3, c4, c5, c6, c7]))
        16 8 [d0, d1, d2, d3, d4, d5, d6, d7]).all Option.isSome = true := by
  have h : respSetMultizonemultizone
        (some (respSetMultizonemultizone none 16 0 [c0, c1, c2, c3, c4, c5, c6, c7]))
        16 8 [d0, d1, d2, d3, d4, d5, d6, d7]
      = [some c0, some c1, some c2, some c3, some c4, some c5, some c6, some c7,
         some d0, some d1, some d2, some d3, some d4, some d5, some d6, some d7] := by
    simp [respSetMultizonemultizone, mzIter]
  refine ⟨h, ?_, ?_⟩ <;> rw [h] <;> simp [Option.isSome]

/-! ## C2: reply correlation for a wrong source_id
(Device.datagram_received and Device.try_sending, aiolifx.py) -/

/-- One pending entry of the self.message table: self.message[seq_num] is the
list [response_type, event, callb].  The expected reply class response_type is
identified by its wire message type, callb by whether one was supplied; the
asyncio Event slot is modelled by the signaled flag of the result. -/
structure Entry where
  response_type : Nat
  callb : Bool
deriving DecidableEq, Repr

/-- The attributes of a Device instance that datagram_received and
try_sending read or write: the endpoint source_id, the pending-request table
self.message keyed by sequence number, whether a default_callb is installed,
and the cached state attributes written by the Device-level resp_set_
handlers.  Label-like fields are kept as byte lists (the source decodes them
to str); wifi_firmware_version holds the major.minor string that
resp_set_wififirmware builds before wrapping it in float(). -/
structure DevState where
  source_id : Nat
  message : List (Nat × Entry)
  default_callb : Bool
  label : Option (List Nat)
  location : Option (List Nat)
  group : Option (List Nat)
  power_level : Option Nat
  host_firmware_version : Option String
  host_firmware_build_timestamp : Option Nat
  wifi_firmware_version : Option String
  wifi_firmware_build_timestamp : Option Nat
  vendor : Option Nat
  product : Option Nat
  version : Option Nat
deriving DecidableEq, Repr

/-- del self.message[seq]: remove the pending entry keyed by seq. -/
def eraseSeq (m : List (Nat × Entry)) (seq : Nat) : List (Nat × Entry) :=
  m.filter (fun kv => kv.1 != seq)

/-- type(response) == response_type: exact class comparison.  A bare Message
(the Unknown case) is of class Message, which is none of the expected reply
classes; distinct modelled kinds have distinct classes, identified here by
their MSG_IDS numbers. -/
def typeMatches (p : Payload) (response_type : Nat) : Bool :=
  match p with
  | .Unknown _ => false
  | p => MSG_IDS p == response_type

/-- label.decode().replace("\x00", ""): drop the NUL bytes of a label
field. -/
def stripNulls (label : List Nat) : List Nat :=
  label.filter (fun b => b != 0)

/-- The handler dispatch of datagram_received for a plain Device: when the
reply's class name contains "State" and resp_set_ plus the lowercased
remainder names a method of self, that handler runs.  Device defines
resp_set_label, resp_set_location, resp_set_group, resp_set_power,
resp_set_wififirmware, resp_set_hostfirmware and resp_set_version; every
other decoded kind either lacks "State" in its class name or names a
setmethod absent from dir(self), leaving the state unchanged. -/
def applyStateHandler (s : DevState) : Payload → DevState
  | .StateLabel label => { s with label := some (stripNulls label) }
  | .StateLocation _ label _ => { s with location := some (stripNulls label) }
  | .StateGroup _ label _ => { s with group := some (stripNulls label) }
  | .StatePower power_level => { s with power_level := some power_level }
  | .StateHostFirmware build _ version =>
      { s with
          host_firmware_version := some (hostFirmwareVersionString version),
          host_firmware_build_timestamp := some build }
  | .StateWifiFirmware build _ version =>
      { s with
          wifi_firmware_version := some (wifiFirmwareVersionString version),
          wifi_firmware_build_timestamp := some build }
  | .StateVersion vendor product version =>
      { s with vendor := some vendor, product := some product,
               version := some version }
  | _ => s

/-- The observable outcome of one datagram_received call: the updated device
state, whether the pending entry's callback ran, whether default_callb ran,
and whether the waiter event was set. -/
structure RxResult where
  state : DevState
  callbackCalled : Bool
  defaultCalled : Bool
  signaled : Bool
deriving DecidableEq, Repr

/-- Device.datagram_received: unpack the datagram (none when unpacking
raises), look the sequence number up in self.message and correlate.  On a
type match with a source_id match, run the matching resp_set_ handler, the
callback and event.set(), then delete the entry; on a type match with a
source_id mismatch, only delete the entry; an Acknowledgement that was not
the expected type is ignored; any other unexpected type deletes the entry; an
unknown sequence number goes to default_callb. -/
def datagramReceived (s : DevState) (data : List Nat) : Option RxResult := do
  let (h, p) ← unpackLifxMessage data
  match s.message.lookup h.seq_num with
  | some entry =>
      if typeMatches p entry.response_type then
        if h.source_id == s.source_id then
          pure { state := { applyStateHandler s p with
                              message := eraseSeq s.message h.seq_num },
                 callbackCalled := entry.callb, defaultCalled := false,
                 signaled := true }
        else
          pure { state := { s with message := eraseSeq s.message h.seq_num },
                 callbackCalled := false, defaultCalled := false,
                 signaled := false }
      else if typeMatches p 45 then
        pure { state := s, callbackCalled := false, defaultCalled := false,
               signaled := false }
      else
        pure { state := { s with message := eraseSeq s.message h.seq_num },
               callbackCalled := false, defaultCalled := false,
               signaled := false }
  | none =>
      pure { state := s, callbackCalled := false,
             defaultCalled := s.default_callb, signaled := false }

/-- The guard at the top of each try_sending attempt: if msg.seq_num not in
self.message: return.  The next attempt proceeds (re-arms the event, sends
and waits again) exactly when the pending entry is still present. -/
def trySendingNextAttempt (s : DevState) (seq : Nat) : Bool :=
  (s.message.lookup seq).isSome

/-- Deleting a sequence number from the pending table makes later lookups of
that sequence number fail. -/
theorem lookup_eraseSeq (m : List (Nat × Entry)) (seq : Nat) :
    (eraseSeq m seq).lookup seq = none := by
  induction m with
  | nil => rfl
  | cons kv rest ih =>
    obtain ⟨k, v⟩ := kv
    rw [eraseSeq, List.filter_cons]
    by_cases hk : k = seq
    · rw [if_neg (by simp [hk])]
      exact ih
    · rw [if_pos (by simp [hk])]
      have hne : (seq == k) = false := by simp [Ne.symm hk]
      simp only [List.lookup, hne]
      exact ih

/-- C2, amended.  When a decoded reply's seq_num is pending and its type
matches the entry's expected kind but its source_id differs from the
endpoint's, the pending entry is removed and nothing else changes: no cached
attribute is updated, no callback is invoked and the waiter is not signaled —
and the retry loop's next attempt finds the entry absent and returns without
sending, rather than proceeding to another attempt as the claim states. -/
theorem c2_wrong_source_amended (s : DevState) (data : List Nat)
    (h : Header) (p : Payload) (e : Entry)
    (hdec : unpackLifxMessage data = some (h, p))
    (hpend : s.message.lookup h.seq_num = some e)
    (htype : typeMatches p e.response_type = true)
    (hsrc : h.source_id ≠ s.source_id) :
    datagramReceived s data =
      some { state := { s with message := eraseSeq s.message h.seq_num },
             callbackCalled := false, defaultCalled := false,
             signaled := false } ∧
    (eraseSeq s.message h.seq_num).lookup h.seq_num = none ∧
    trySendingNextAttempt { s with message := eraseSeq s.message h.seq_num }
      h.seq_num = false := by
  have hb : (h.source_id == s.source_id) = false := by simp [hsrc]
  refine ⟨?_, lookup_eraseSeq _ _, ?_⟩
  · unfold datagramReceived
    rw [hdec]
    simp only [Option.bind_eq_bind, Option.some_bind, hpend, htype, hb,
      Bool.false_eq_true, if_false, reduceIte]
    rfl
  · show (List.lookup h.seq_num (eraseSeq s.message h.seq_num)).isSome = false
    rw [lookup_eraseSeq]
    rfl

/-- C2 counterexample: a wrong-source StateLabel reply (pending seq_num 1,
expected kind StateLabel, endpoint source_id 0xDEADBEEF, reply source_id
0x12345678) is dropped after deleting the pending entry — no callback, no
default callback, no signal, no cached label — and the next try_sending
attempt does NOT proceed: its loop guard observes the deleted entry and
returns, refuting the claim's final clause. -/
theorem c2_counterexample :
    (datagramReceived
        { source_id := 3735928559, message := [(1, ⟨25, true⟩)],
          default_callb := false, label := none, location := none,
          group := none, power_level := none, host_firmware_version := none,
          host_firmware_build_timestamp := none,
          wifi_firmware_version := none,
          wifi_firmware_build_timestamp := none, vendor := none,
          product := none, version := none }
        [68, 0, 0, 20, 120, 86, 52, 18, 170, 187, 204, 221, 238, 255, 0, 0,
         0, 0, 0, 0, 0, 0, 0, 1, 0, 0, 0, 0, 0, 0, 0, 0, 25, 0, 0, 0,
         75, 105, 116, 99, 104, 101, 110, 0, 0, 0, 0, 0, 0, 0, 0, 0, 0, 0,
         0, 0, 0, 0, 0, 0, 0, 0, 0, 0, 0, 0, 0, 0]).map
      (fun r =>
        (r.callbackCalled, r.defaultCalled, r.signaled, r.state.label,
         r.state.message, trySendingNextAttempt r.state 1)) =
      some (false, false, false, none, [], false) := by
  rfl

/-- C2 witness: the amended theorem applied to the concrete wrong-source
StateLabel datagram of 68 bytes. -/
theorem c2_wrong_source_amended_witness :
    datagramReceived
        { source_id := 3735928559, message := [(1, ⟨25, true⟩)],
          default_callb := false, label := none, location := none,
          group := none, power_level := none, host_firmware_version := none,
          host_firmware_build_timestamp := none,
          wifi_firmware_version := none,
          wifi_firmware_build_timestamp := none, vendor := none,
          product := none, version := none }
        [68, 0, 0, 20, 120, 86, 52, 18, 170, 187, 204, 221, 238, 255, 0, 0,
         0, 0, 0, 0, 0, 0, 0, 1, 0, 0, 0, 0, 0, 0, 0, 0, 25, 0, 0, 0,
         75, 105, 116, 99, 104, 101, 110, 0, 0, 0, 0, 0, 0, 0, 0, 0, 0, 0,
         0, 0, 0, 0, 0, 0, 0, 0, 0, 0, 0, 0, 0, 0] =
      some { state :=
               { source_id := 3735928559, message := [],
                 default_callb := false, label := none, location := none,
                 group := none, power_level := none,
                 host_firmware_version := none,
                 host_firmware_build_timestamp := none,
                 wifi_firmware_version := none,
                 wifi_firmware_build_timestamp := none, vendor := none,
                 product := none, version := none },
             callbackCalled := false, defaultCalled := false,
             signaled := false } ∧
    trySendingNextAttempt
      { source_id := 3735928559, message := [], default_callb := false,
        label := none, location := none, group := none, power_level := none,
        host_firmware_version := none,
        host_firmware_build_timestamp := none, wifi_firmware_version := none,
        wifi_firmware_build_timestamp := none, vendor := none,
        product := none, version := none } 1 = false := by
  have h := c2_wrong_source_amended
    { source_id := 3735928559, message := [(1, ⟨25, true⟩)],
      default_callb := false, label := none, location := none,
      group := none, power_level := none, host_firmware_version := none,
      host_firmware_build_timestamp := none, wifi_firmware_version := none,
      wifi_firmware_build_timestamp := none, vendor := none,
      product := none, version := none }
    [68, 0, 0, 20, 120, 86, 52, 18, 170, 187, 204, 221, 238, 255, 0, 0,
     0, 0, 0, 0, 0, 0, 0, 1, 0, 0, 0, 0, 0, 0, 0, 0, 25, 0, 0, 0,
     75, 105, 116, 99, 104, 101, 110, 0, 0, 0, 0, 0, 0, 0, 0, 0, 0, 0,
     0, 0, 0, 0, 0, 0, 0, 0, 0, 0, 0, 0, 0, 0]
    { target_addr := [170, 187, 204, 221, 238, 255],
      source_id := 305419896, seq_num := 1, ack_requested := false,
      response_requested := false }
    (.StateLabel [75, 105, 116, 99, 104, 101, 110, 0, 0, 0, 0, 0, 0, 0, 0,
      0, 0, 0, 0, 0, 0, 0, 0, 0, 0, 0, 0, 0, 0, 0, 0, 0])
    ⟨25, true⟩ (by rfl) (by rfl) (by rfl) (by decide)
  exact ⟨h.1, h.2.2⟩

/-! ## C10: set_power value handling
(Device.set_power and Light.set_power, aiolifx.py) -/

/-- The Python values that appear in set_power's membership tests. -/
inductive PyVal where
  | pybool (b : Bool)
  | pyint (n : Int)
  | pystr (s : String)
deriving DecidableEq, Repr

/-- Python equality between those values: True == 1 and False == 0, numbers
compare numerically, strings compare as strings, and a number never equals a
string. -/
def pyEq : PyVal → PyVal → Bool
  | .pybool a, .pybool b => a == b
  | .pybool a, .pyint n => (if a then (1 : Int) else 0) == n
  | .pyint n, .pybool a => n == (if a then (1 : Int) else 0)
  | .pyint m, .pyint n => m == n
  | .pystr s, .pystr t => s == t
  | _, _ => false

/-- Python list membership: value in [x, y, z]. -/
def pyIn (v : PyVal) (l : List PyVal) : Bool := l.any (fun x => pyEq v x)

/-- The list on = [True, 1, "on"] of both set_power methods. -/
def onValues : List PyVal := [.pybool true, .pyint 1, .pystr "on"]

/-- The list off = [False, 0, "off"] of both set_power methods. -/
def offValues : List PyVal := [.pybool false, .pyint 0, .pystr "off"]

/-- What one set_power call does: whether a datagram goes out, the
power_level field of its payload, any immediate write to the cached
power_level, and whether the user callback runs during the call itself. -/
structure SetPowerOutcome where
  sendsDatagram : Bool
  payloadPowerLevel : Option Nat
  cacheWrite : Option Nat
  callsCallbackImmediately : Bool
deriving DecidableEq, Repr

/-- Device.set_power: four guarded branches (value in on / off crossed with
rapid), and silently nothing when the value is in neither list.  The cache
and callback are touched only later, from the ACK path, except that the
rapid branches write the cache immediately; no branch invokes the callback
at call time. -/
def deviceSetPower (value : PyVal) (rapid : Bool) : SetPowerOutcome :=
  if pyIn value onValues && !rapid then
    { sendsDatagram := true, payloadPowerLevel := some 65535,
      cacheWrite := none, callsCallbackImmediately := false }
  else if pyIn value offValues && !rapid then
    { sendsDatagram := true, payloadPowerLevel := some 0,
      cacheWrite := none, callsCallbackImmediately := false }
  else if pyIn value onValues && rapid then
    { sendsDatagram := true, payloadPowerLevel := some 65535,
      cacheWrite := some 65535, callsCallbackImmediately := false }
  else if pyIn value offValues && rapid then
    { sendsDatagram := true, payloadPowerLevel := some 0,
      cacheWrite := some 0, callsCallbackImmediately := false }
  else
    { sendsDatagram := false, payloadPowerLevel := none,
      cacheWrite := none, callsCallbackImmediately := false }

/-- Light.set_power: myvalue = 65535 if value in on else 0; a LightSetPower
datagram always goes out; the rapid path also writes the cache immediately
and invokes the callback when one was given. -/
def lightSetPower (value : PyVal) (rapid : Bool) (hasCallback : Bool) :
    SetPowerOutcome :=
  let myvalue := if pyIn value onValues then 65535 else 0
  if !rapid then
    { sendsDatagram := true, payloadPowerLevel := some myvalue,
      cacheWrite := none, callsCallbackImmediately := false }
  else
    { sendsDatagram := true, payloadPowerLevel := some myvalue,
      cacheWrite := some myvalue, callsCallbackImmediately := hasCallback }

/-- C10.  For every value outside both recognized lists (such as the integer
65535), Device.set_power sends no datagram, leaves the cached power_level
unchanged and invokes no callback, regardless of the rapid flag; the Light
subclass instead always sends, treating every value outside the on list as
off (power_level 0). -/
theorem c10_set_power (value : PyVal) (rapid : Bool)
    (hon : pyIn value onValues = false) (hoff : pyIn value offValues = false) :
    deviceSetPower value rapid =
      { sendsDatagram := false, payloadPowerLevel := none,
        cacheWrite := none, callsCallbackImmediately := false } ∧
    ∀ hasCallback, lightSetPower value rapid hasCallback =
      { sendsDatagram := true, payloadPowerLevel := some 0,
        cacheWrite := if rapid then some 0 else none,
        callsCallbackImmediately := rapid && hasCallback } := by
  constructor
  · unfold deviceSetPower
    rw [hon, hoff]
    simp
  · intro hasCallback
    unfold lightSetPower
    rw [hon]
    cases rapid <;> simp

/-- C10 witness: the theorem applied at the integer 65535 with both flags. -/
theorem c10_set_power_witness :
    deviceSetPower (.pyint 65535) true =
      { sendsDatagram := false, payloadPowerLevel := none,
        cacheWrite := none, callsCallbackImmediately := false } ∧
    lightSetPower (.pyint 65535) true true =
      { sendsDatagram := true, payloadPowerLevel := some 0,
        cacheWrite := some 0, callsCallbackImmediately := true } :=
  ⟨(c10_set_power (.pyint 65535) true (by decide) (by decide)).1,
   (c10_set_power (.pyint 65535) true (by decide) (by decide)).2 true⟩

end Aiolifx
